import Mathlib

/-!
Verification development for the Bluetooth host-stack sources of this
repository: the SMP pairing actions (stack/smp/smp_act.cc), the AVDTP
signaling message handling (stack/avdt/avdt_msg.cc) and the AVCTP API
(the unnamed avct_api source).  Each C function under scrutiny is embedded
as a pure Lean function over an explicit record of the control-block
fields it touches; byte buffers are lists of naturals; machine integers
are naturals bounded where the bound matters (uint8 masks are < 256).
External collaborators that the sources call (SCB lookup, the association
model selection, the ECC point validation primitive) are passed in as
oracle parameters, mirroring the external-interface section of the
design.
-/

namespace Smp

/-- Key-distribution mask bits (SMP_SEC_KEY_TYPE_ENC/ID/CSRK/LK). -/
def SMP_SEC_KEY_TYPE_ENC : Nat := 1

def SMP_SEC_KEY_TYPE_ID : Nat := 2

def SMP_SEC_KEY_TYPE_CSRK : Nat := 4

def SMP_SEC_KEY_TYPE_LK : Nat := 8

/-- SMP status code SMP_SUCCESS. -/
def SMP_SUCCESS : Nat := 0

def SMP_PASSKEY_ENTRY_FAIL : Nat := 1

def SMP_PAIR_AUTH_FAIL : Nat := 3

def SMP_PAIR_NOT_SUPPORT : Nat := 5

def SMP_PAIR_FAIL_UNKNOWN : Nat := 8

def SMP_REPEATED_ATTEMPTS : Nat := 9

def SMP_INVALID_PARAMETERS : Nat := 10

/-- Largest failure reason defined by the spec (SMP_XTRANS_DERIVE_NOT_ALLOW). -/
def SMP_MAX_FAIL_RSN_PER_SPEC : Nat := 14

/-- Internal (beyond the per-spec range) status used when encryption fails. -/
def SMP_ENC_FAIL : Nat := 20

/-- Opcode of the Pairing Failed PDU. -/
def SMP_OPCODE_PAIRING_FAILED : Nat := 5

/-- Association models (SMP_MODEL_* from smp_int.h, in declaration order). -/
def SMP_MODEL_ENCRYPTION_ONLY : Nat := 0

def SMP_MODEL_PASSKEY : Nat := 1

def SMP_MODEL_OOB : Nat := 2

def SMP_MODEL_KEY_NOTIF : Nat := 3

def SMP_MODEL_SEC_CONN_JUSTWORKS : Nat := 4

def SMP_MODEL_SEC_CONN_NUM_COMP : Nat := 5

def SMP_MODEL_SEC_CONN_PASSKEY_ENT : Nat := 6

def SMP_MODEL_SEC_CONN_PASSKEY_DISP : Nat := 7

def SMP_MODEL_SEC_CONN_OOB : Nat := 8

def SMP_MODEL_OUT_OF_RANGE : Nat := 9

/-- Clearing a bit of a uint8 mask: the C idiom `x &= ~m` on a uint8. -/
def clear8 (x m : Nat) : Nat := x &&& (255 ^^^ m)

/-- The fields of the single SMP control block tSMP_CB that the embedded
actions read or write. -/
structure SmpCb where
  role_slave : Bool
  flags_we_started_dd : Bool
  flags_enc_after_pair : Bool
  secure_connections_only_mode_required : Bool
  le_secure_connections_mode_is_used : Bool
  smp_over_br : Bool
  local_i_key : Nat
  local_r_key : Nat
  peer_i_key : Nat
  peer_r_key : Nat
  cert_failure : Nat
  status : Nat
deriving DecidableEq, Repr

/-- Embeds pts_test_send_authentication_complete_failure (smp_act.cc): the
condition under which the PTS-test hook short-circuits the pairing. -/
def pts_test_send_authentication_complete_failure (reason : Nat) : Bool :=
  reason == SMP_PAIR_AUTH_FAIL || reason == SMP_PAIR_FAIL_UNKNOWN ||
  reason == SMP_PAIR_NOT_SUPPORT || reason == SMP_PASSKEY_ENTRY_FAIL ||
  reason == SMP_REPEATED_ATTEMPTS

/-- Embeds smp_update_key_mask (smp_act.cc): clears the given key-type bit
from the direction-appropriate mask, or from both masks for the keys that
LE Secure Connections mode / SMP-over-BR derives locally instead of
exchanging (ENC and LK). -/
def smp_update_key_mask (cb : SmpCb) (key_type : Nat) (recv : Bool) : SmpCb :=
  if (cb.le_secure_connections_mode_is_used || cb.smp_over_br) &&
     (key_type == SMP_SEC_KEY_TYPE_ENC || key_type == SMP_SEC_KEY_TYPE_LK) then
    { cb with local_i_key := clear8 cb.local_i_key key_type,
              local_r_key := clear8 cb.local_r_key key_type }
  else if cb.role_slave then
    if recv then { cb with local_i_key := clear8 cb.local_i_key key_type }
    else { cb with local_r_key := clear8 cb.local_r_key key_type }
  else
    if recv then { cb with local_r_key := clear8 cb.local_r_key key_type }
    else { cb with local_i_key := clear8 cb.local_i_key key_type }

/-- Events raised into the SMP state machine by the embedded actions. -/
inductive SmpEvt where
  | bondReq
  | authCmpl (status : Nat)
deriving DecidableEq, Repr

/-- The mask adjustment of smp_check_auth_req (smp_act.cc) for
enc_enable = 1: in LE SC mode force the ENC bit on in both masks, clear
LK from both unless both masks carry it, and on the master restrict the
responder mask to ID and CSRK; in legacy mode clear LK from both. -/
def smp_check_auth_req_masks (sc slave : Bool) (ikey rkey : Nat) :
    Nat × Nat :=
  if sc then
    let i1 := ikey ||| SMP_SEC_KEY_TYPE_ENC
    let r1 := rkey ||| SMP_SEC_KEY_TYPE_ENC
    let p :=
      if i1 &&& SMP_SEC_KEY_TYPE_LK == 0 || r1 &&& SMP_SEC_KEY_TYPE_LK == 0 then
        (clear8 i1 SMP_SEC_KEY_TYPE_LK, clear8 r1 SMP_SEC_KEY_TYPE_LK)
      else (i1, r1)
    if !slave then
      (p.1, p.2 &&& (SMP_SEC_KEY_TYPE_ID ||| SMP_SEC_KEY_TYPE_CSRK))
    else p
  else (clear8 ikey SMP_SEC_KEY_TYPE_LK, clear8 rkey SMP_SEC_KEY_TYPE_LK)

/-- Embeds smp_check_auth_req (smp_act.cc): mask adjustment at the
transition into key distribution, and the event it raises. -/
def smp_check_auth_req (cb : SmpCb) (enc_enable : Nat) : SmpCb × Option SmpEvt :=
  if enc_enable == 1 then
    let m := smp_check_auth_req_masks cb.le_secure_connections_mode_is_used
               cb.role_slave cb.local_i_key cb.local_r_key
    let cb1 := { cb with local_i_key := m.1, local_r_key := m.2 }
    if cb1.local_i_key != 0 || cb1.local_r_key != 0 then (cb1, some .bondReq)
    else (cb1, some (.authCmpl SMP_SUCCESS))
  else if enc_enable == 0 then
    if cb.flags_enc_after_pair then (cb, some (.authCmpl SMP_ENC_FAIL))
    else if !cb.role_slave then (cb, some (.authCmpl SMP_ENC_FAIL))
    else (cb, none)
  else (cb, none)

/-- Outcomes of the dispatch part of smp_proc_pair_cmd. -/
inductive PairCmdOutcome where
  | authCmplEvt (status : Nat)
  | secRequestEvt
  | oobRequest
  | pairRspPath
  | decideAssocPath
deriving DecidableEq, Repr

/-- Embeds smp_proc_pair_cmd (smp_act.cc): processing of the peer pairing
request/response after the six parameter bytes have been stored.  The
association-model selection smp_select_association_model lives in
smp_utils.cc (outside these sources); its result is passed in as
`sel_model` together with the le_secure_connections_mode_is_used flag it
computes, here `sc_used`. -/
def smp_proc_pair_cmd (cb : SmpCb) (invalid_len invalid_par : Bool)
    (sel_model : Nat) (sc_used : Bool) : PairCmdOutcome :=
  if invalid_len then .authCmplEvt SMP_INVALID_PARAMETERS
  else if invalid_par then .authCmplEvt SMP_INVALID_PARAMETERS
  else if pts_test_send_authentication_complete_failure cb.cert_failure then
    .authCmplEvt cb.cert_failure
  else if cb.role_slave then
    if !cb.flags_we_started_dd then .secRequestEvt
    else
      if cb.secure_connections_only_mode_required &&
         (!sc_used || sel_model == SMP_MODEL_SEC_CONN_JUSTWORKS) then
        .authCmplEvt SMP_PAIR_AUTH_FAIL
      else if sel_model == SMP_MODEL_SEC_CONN_OOB then .oobRequest
      else .pairRspPath
  else
    if cb.secure_connections_only_mode_required &&
       (!sc_used || sel_model == SMP_MODEL_SEC_CONN_JUSTWORKS) then
      .authCmplEvt SMP_PAIR_AUTH_FAIL
    else if sel_model == SMP_MODEL_SEC_CONN_OOB then .oobRequest
    else .decideAssocPath

/-- Outcomes of smp_process_io_response on the slave side. -/
inductive IoRspOutcome where
  | secReqSent
  | authCmplEvt (status : Nat)
  | oobRequest
  | pairRspPath
deriving DecidableEq, Repr

/-- Embeds smp_process_io_response (smp_act.cc): the slave path that
selects the association model after the application answered the IO
capability request.  `oob_ok` is the boolean smp_request_oob_data returns
(external). -/
def smp_process_io_response (cb : SmpCb) (sel_model : Nat) (sc_used : Bool)
    (oob_ok : Bool) : IoRspOutcome :=
  if cb.flags_we_started_dd then .secReqSent
  else
    if cb.secure_connections_only_mode_required &&
       (!sc_used || sel_model == SMP_MODEL_SEC_CONN_JUSTWORKS) then
      .authCmplEvt SMP_PAIR_AUTH_FAIL
    else if sel_model == SMP_MODEL_SEC_CONN_OOB && oob_ok then .oobRequest
    else if pts_test_send_authentication_complete_failure cb.cert_failure then
      .authCmplEvt cb.cert_failure
    else .pairRspPath

/-- Side effects of an SMP action: the opcodes it sends to the peer, and
whether it cancels the delayed-auth timer. -/
structure SmpEffects where
  sent_opcodes : List Nat
  cancel_delayed_auth_timer : Bool
deriving DecidableEq, Repr

/-- Embeds smp_proc_pair_fail (smp_act.cc): processing of a received
Pairing Failed PDU of body length `rcvd_cmd_len` carrying peer reason
`peer_status`.  The body sends nothing to the peer and cancels the
delayed-auth timer. -/
def smp_proc_pair_fail (cb : SmpCb) (rcvd_cmd_len : Nat) (peer_status : Nat) :
    SmpCb × SmpEffects :=
  if rcvd_cmd_len < 2 then
    ({ cb with status := SMP_INVALID_PARAMETERS }, ⟨[], true⟩)
  else
    ({ cb with status := peer_status }, ⟨[], true⟩)

/-- Embeds smp_send_pair_fail (smp_act.cc): the only action that emits a
Pairing Failed PDU, and only for a per-spec nonzero reason. -/
def smp_send_pair_fail (cb : SmpCb) (status : Nat) : SmpCb × SmpEffects :=
  let cb := { cb with status := status }
  if status ≤ SMP_MAX_FAIL_RSN_PER_SPEC && status != SMP_SUCCESS then
    (cb, ⟨[SMP_OPCODE_PAIRING_FAILED], false⟩)
  else (cb, ⟨[], false⟩)

/-- Result of smp_process_pairing_public_key. -/
structure PublKeyResult where
  event : Option Nat
  peer_key_stored : Bool
  flag_have_peer_key : Bool
  proceeded_to_dhkey_wait : Bool
deriving DecidableEq, Repr

/-- Embeds smp_process_pairing_public_key (smp_act.cc).  `peer_x`, `peer_y`
and `loc_x` are the 32-byte coordinates; `valid_point` is the result of the
external primitive ECC_ValidatePoint on the received point;
`invalid_par` is smp_command_has_invalid_parameters (length check, in
smp_utils.cc outside these sources). -/
def smp_process_pairing_public_key (invalid_par : Bool)
    (peer_x _peer_y loc_x : List Nat) (valid_point : Bool) : PublKeyResult :=
  if invalid_par then ⟨some SMP_INVALID_PARAMETERS, false, false, false⟩
  else if peer_x == loc_x then ⟨some SMP_PAIR_AUTH_FAIL, true, false, false⟩
  else if !valid_point then ⟨some SMP_PAIR_AUTH_FAIL, true, false, false⟩
  else ⟨none, true, true, true⟩

end Smp

namespace Avdt

/-- AVDTP packet types (2-bit field of the first header byte). -/
def AVDT_PKT_TYPE_SINGLE : Nat := 0

def AVDT_PKT_TYPE_START : Nat := 1

def AVDT_PKT_TYPE_CONT : Nat := 2

def AVDT_PKT_TYPE_END : Nat := 3

/-- AVDTP message types (2-bit field of the first header byte). -/
def AVDT_MSG_TYPE_CMD : Nat := 0

def AVDT_MSG_TYPE_GRJ : Nat := 1

def AVDT_MSG_TYPE_RSP : Nat := 2

def AVDT_MSG_TYPE_REJ : Nat := 3

/-- Header lengths per packet type (AVDT_LEN_TYPE_*): SINGLE carries the
header byte plus the signal byte, START additionally the
number-of-signal-packets byte, CONT and END only the header byte. -/
def AVDT_LEN_TYPE_SINGLE : Nat := 2

def AVDT_LEN_TYPE_START : Nat := 3

def AVDT_LEN_TYPE_CONT : Nat := 1

def AVDT_LEN_TYPE_END : Nat := 1

/-- Table avdt_msg_pkt_type_len of per-packet-type minimum lengths. -/
def avdt_msg_pkt_type_len (t : Nat) : Nat :=
  [AVDT_LEN_TYPE_SINGLE, AVDT_LEN_TYPE_START, AVDT_LEN_TYPE_CONT,
   AVDT_LEN_TYPE_END].getD t 0

/-- AVDTP signal ids 1..13 (avdt_api.h). -/
def AVDT_SIG_DISCOVER : Nat := 1

def AVDT_SIG_GETCAP : Nat := 2

def AVDT_SIG_SETCONFIG : Nat := 3

def AVDT_SIG_GETCONFIG : Nat := 4

def AVDT_SIG_RECONFIG : Nat := 5

def AVDT_SIG_OPEN : Nat := 6

def AVDT_SIG_START : Nat := 7

def AVDT_SIG_CLOSE : Nat := 8

def AVDT_SIG_SUSPEND : Nat := 9

def AVDT_SIG_ABORT : Nat := 10

def AVDT_SIG_SECURITY : Nat := 11

def AVDT_SIG_GET_ALLCAP : Nat := 12

def AVDT_SIG_DELAY_RPT : Nat := 13

/-- Largest defined signal id, AVDT_SIG_MAX = AVDT_SIG_DELAY_RPT.  The
thirteen-entry build/parse/event tables of avdt_msg.cc are indexed by
sig − 1, with the delay-report entry at index 12, so delay report (13) is
an in-range signal. -/
def AVDT_SIG_MAX : Nat := 13

/-- SEID range (AVDT_SEID_MIN .. AVDT_SEID_MAX). -/
def AVDT_SEID_MIN : Nat := 1

def AVDT_SEID_MAX : Nat := 62

/-- AVDTP error codes (avdt_api.h values). -/
def AVDT_ERR_LENGTH : Nat := 0x11

def AVDT_ERR_SEID : Nat := 0x12

def AVDT_ERR_CATEGORY : Nat := 0x17

def AVDT_ERR_PAYLOAD : Nat := 0x18

def AVDT_ERR_INVALID_CAP : Nat := 0x1A

def AVDT_ERR_RECOV_TYPE : Nat := 0x22

def AVDT_ERR_MEDIA_TRANS : Nat := 0x23

def AVDT_ERR_RECOV_FMT : Nat := 0x25

def AVDT_ERR_ROHC_FMT : Nat := 0x26

def AVDT_ERR_MUX_FMT : Nat := 0x28

def AVDT_ERR_CP_FMT : Nat := 0x27

def AVDT_ERR_NSC : Nat := 0x29

def AVDT_ERR_BAD_STATE : Nat := 0x31

def AVDT_ERR_SERVICE : Nat := 0x80

/-- Service categories (AVDT_CAT_*), 1..8; AVDT_CAT_MAX_CUR is the largest
category the nine-entry length/error tables of avdt_msg.cc cover. -/
def AVDT_CAT_TRANS : Nat := 1

def AVDT_CAT_REPORT : Nat := 2

def AVDT_CAT_RECOV : Nat := 3

def AVDT_CAT_PROTECT : Nat := 4

def AVDT_CAT_HDRCMP : Nat := 5

def AVDT_CAT_MUX : Nat := 6

def AVDT_CAT_CODEC : Nat := 7

def AVDT_CAT_DELAY_RPT : Nat := 8

def AVDT_CAT_MAX_CUR : Nat := 8

/-- Modelled from the spec: per-category payload bounds and sizes from the
AVDTP headers (avdt_api.h / bt_target.h), which are not among the sources;
§4.1 of the spec mandates per-category min/max length tables and codec and
protection payloads of bounded size. -/
def AVDT_LEN_TRANS_MIN : Nat := 0

def AVDT_LEN_TRANS_MAX : Nat := 0

def AVDT_LEN_REPORT_MIN : Nat := 0

def AVDT_LEN_REPORT_MAX : Nat := 0

def AVDT_LEN_RECOV_MIN : Nat := 3

def AVDT_LEN_RECOV_MAX : Nat := 3

def AVDT_LEN_PROTECT_MIN : Nat := 2

def AVDT_LEN_PROTECT_MAX : Nat := 255

def AVDT_LEN_HDRCMP_MIN : Nat := 1

def AVDT_LEN_HDRCMP_MAX : Nat := 1

def AVDT_LEN_MUX_MIN : Nat := 3

def AVDT_LEN_MUX_MAX : Nat := 7

def AVDT_LEN_CODEC_MIN : Nat := 2

def AVDT_LEN_CODEC_MAX : Nat := 255

def AVDT_LEN_DELAY_RPT_MIN : Nat := 0

def AVDT_LEN_DELAY_RPT_MAX : Nat := 0

def AVDT_CODEC_SIZE : Nat := 20

def AVDT_PROTECT_SIZE : Nat := 90

def AVDT_RECOV_RFC2733 : Nat := 1

def AVDT_RECOV_MRWS_MIN : Nat := 1

def AVDT_RECOV_MRWS_MAX : Nat := 0x18

def AVDT_RECOV_MNMP_MIN : Nat := 1

def AVDT_RECOV_MNMP_MAX : Nat := 0x18

/-- PSC bit masks (AVDT_PSC_* = 1 shifted by the category number). -/
def AVDT_PSC_TRANS : Nat := 1 <<< 1

def AVDT_PSC_REPORT : Nat := 1 <<< 2

def AVDT_PSC_RECOV : Nat := 1 <<< 3

def AVDT_PSC_PROTECT : Nat := 1 <<< 4

def AVDT_PSC_HDRCMP : Nat := 1 <<< 5

def AVDT_PSC_MUX : Nat := 1 <<< 6

def AVDT_PSC_CODEC : Nat := 1 <<< 7

def AVDT_PSC_DELAY_RPT : Nat := 1 <<< 8

/-- Modelled from the spec: AVDT_PSC, the protocol service capabilities the
local implementation supports (bt_target.h, not among the sources): media
transport and delay reporting. -/
def AVDT_PSC : Nat := AVDT_PSC_TRANS ||| AVDT_PSC_DELAY_RPT

/-- Mask of all psc values, AVDT_MSG_PSC_MASK from avdt_msg.cc. -/
def AVDT_MSG_PSC_MASK : Nat :=
  AVDT_PSC_TRANS ||| AVDT_PSC_REPORT ||| AVDT_PSC_DELAY_RPT |||
  AVDT_PSC_RECOV ||| AVDT_PSC_HDRCMP ||| AVDT_PSC_MUX

/-- Modelled from the spec: AVDT_LEG_PSC, the basic (legacy) capability
mask applied by avdt_msg_prs_svccap (avdt_api.h, not among the sources). -/
def AVDT_LEG_PSC : Nat :=
  AVDT_PSC_TRANS ||| AVDT_PSC_REPORT ||| AVDT_PSC_RECOV |||
  AVDT_PSC_PROTECT ||| AVDT_PSC_HDRCMP ||| AVDT_PSC_MUX ||| AVDT_PSC_CODEC

/-- Clearing bits of a uint16 mask: the C idiom `x &= ~m` on a uint16. -/
def clear16 (x m : Nat) : Nat := x &&& (65535 ^^^ m)

/-- Body length constants of the parsers (avdt_int.h values). -/
def AVDT_LEN_SINGLE : Nat := 1

def AVDT_LEN_SETCONFIG_MIN : Nat := 2

def AVDT_LEN_RECONFIG_MIN : Nat := 1

def AVDT_LEN_MULTI_MIN : Nat := 1

def AVDT_LEN_SECURITY_MIN : Nat := 1

def AVDT_LEN_DELAY_RPT : Nat := 3

def AVDT_LEN_GEN_REJ : Nat := 2

def AVDT_LEN_CFG_MIN : Nat := 2

/-- Modelled from the spec: AVDT_NUM_SEPS, the size of the fixed SCB pool
(bt_target.h, not among the sources). -/
def AVDT_NUM_SEPS : Nat := 3

/-- Modelled from the spec: buffer geometry of the transport buffers
(BT_HDR size and BT_DEFAULT_BUFFER_SIZE, bt_common headers outside the
sources); the reassembly buffer capacity is their difference. -/
def BT_HDR_SIZE : Nat := 8

def BT_DEFAULT_BUFFER_SIZE : Nat := 4112

/-- Sentinel offset AVDT_MSG_OFFSET at which a freshly built, not yet
fragmented signaling message starts inside its buffer. -/
def AVDT_MSG_OFFSET : Nat := 15

/-! Reassembly (avdt_msg_asmbl). -/

/-- The in-progress reassembly buffer p_rx_msg: its current write offset
and accumulated length. -/
structure RxMsg where
  offset : Nat
  len : Nat
deriving DecidableEq, Repr

/-- An inbound fragment buffer (BT_HDR view): offset, length, and the
packet-type field parsed from its first byte. -/
structure Frag where
  offset : Nat
  len : Nat
  pkt_type : Nat
deriving DecidableEq, Repr

/-- What avdt_msg_asmbl hands back to the caller: the single packet itself,
or the completed reassembly buffer. -/
inductive AsmblRet where
  | single (offset len : Nat)
  | assembled (offset len : Nat)
deriving DecidableEq, Repr

/-- Embeds avdt_msg_asmbl (avdt_msg.cc): one reassembly step.  The first
component of the result is the new p_rx_msg slot, the second the returned
message, if any. -/
def avdt_msg_asmbl (rx : Option RxMsg) (b : Frag) :
    Option RxMsg × Option AsmblRet :=
  if b.len < 1 then (rx, none)
  else if b.len < avdt_msg_pkt_type_len b.pkt_type then (rx, none)
  else if b.pkt_type == AVDT_PKT_TYPE_SINGLE then
    (none, some (.single b.offset b.len))
  else if b.pkt_type == AVDT_PKT_TYPE_START then
    if BT_HDR_SIZE + b.offset + b.len > BT_DEFAULT_BUFFER_SIZE then
      (none, none)
    else
      (some ⟨b.offset + b.len, b.len - 1⟩, none)
  else
    match rx with
    | none => (none, none)
    | some r =>
      if r.offset + (b.len - AVDT_LEN_TYPE_CONT) >
          BT_DEFAULT_BUFFER_SIZE - BT_HDR_SIZE then (none, none)
      else if b.pkt_type == AVDT_PKT_TYPE_END then
        (none, some (.assembled (r.offset - r.len)
                       (r.len + (b.len - AVDT_LEN_TYPE_CONT))))
      else
        (some ⟨r.offset + (b.len - AVDT_LEN_TYPE_CONT),
               r.len + (b.len - AVDT_LEN_TYPE_CONT)⟩, none)

/-- Folding avdt_msg_asmbl over a whole inbound fragment sequence, keeping
only the reassembly slot. -/
def avdt_msg_asmbl_run (rx : Option RxMsg) (fs : List Frag) : Option RxMsg :=
  fs.foldl (fun s f => (avdt_msg_asmbl s f).1) rx

/-- A fragment that terminates an in-progress reassembly for sure: a
well-formed SINGLE, a well-formed but oversized START, or a well-formed
END. -/
def asmbl_terminator (f : Frag) : Prop :=
  (f.pkt_type = AVDT_PKT_TYPE_SINGLE ∧ AVDT_LEN_TYPE_SINGLE ≤ f.len) ∨
  (f.pkt_type = AVDT_PKT_TYPE_START ∧ AVDT_LEN_TYPE_START ≤ f.len ∧
   BT_DEFAULT_BUFFER_SIZE < BT_HDR_SIZE + f.offset + f.len) ∨
  (f.pkt_type = AVDT_PKT_TYPE_END ∧ AVDT_LEN_TYPE_END ≤ f.len)

instance asmbl_terminator_decidable : DecidablePred asmbl_terminator :=
  fun f => by
    unfold asmbl_terminator
    infer_instance

/-- A fragment that opens a fresh reassembly: a well-formed START that
fits the reassembly buffer. -/
def asmbl_opener (f : Frag) : Prop :=
  f.pkt_type = AVDT_PKT_TYPE_START ∧ AVDT_LEN_TYPE_START ≤ f.len ∧
  BT_HDR_SIZE + f.offset + f.len ≤ BT_DEFAULT_BUFFER_SIZE

instance asmbl_opener_decidable : DecidablePred asmbl_opener :=
  fun f => by
    unfold asmbl_opener
    infer_instance

/-! Fragmentation (avdt_msg_send). -/

/-- One outbound fragment as written to the transport: packet type, the
number-of-signal-packets byte (0 when the packet type carries none), and
the number of message body bytes it carries. -/
structure AvdtFrag where
  pkt_type : Nat
  nosp : Nat
  body_len : Nat
deriving DecidableEq, Repr

/-- Embeds the while-loop of avdt_msg_send (avdt_msg.cc) for an
uncongested channel: `offset` and `len` are the current message buffer
offset and remaining length; the fuel argument only bounds the recursion
and is chosen large enough by the wrapper. -/
def avdt_msg_send_loop (peer_mtu : Nat) : Nat → Nat → Nat → List AvdtFrag
  | 0, _, _ => []
  | _fuel+1, offset, len =>
    if offset = AVDT_MSG_OFFSET ∧ len ≤ peer_mtu - AVDT_LEN_TYPE_SINGLE then
      [⟨AVDT_PKT_TYPE_SINGLE, 0, len⟩]
    else if offset = AVDT_MSG_OFFSET ∧ len > peer_mtu - AVDT_LEN_TYPE_SINGLE then
      let nosp := (len + AVDT_LEN_TYPE_START - peer_mtu) / (peer_mtu - 1) + 2
      let blen := peer_mtu - AVDT_LEN_TYPE_START
      ⟨AVDT_PKT_TYPE_START, nosp, blen⟩ ::
        avdt_msg_send_loop peer_mtu _fuel (offset + blen) (len - blen)
    else if offset > AVDT_MSG_OFFSET ∧ len > peer_mtu - AVDT_LEN_TYPE_CONT then
      let blen := peer_mtu - AVDT_LEN_TYPE_CONT
      ⟨AVDT_PKT_TYPE_CONT, 0, blen⟩ ::
        avdt_msg_send_loop peer_mtu _fuel (offset + blen) (len - blen)
    else
      [⟨AVDT_PKT_TYPE_END, 0, len⟩]

/-- Embeds avdt_msg_send (avdt_msg.cc) for a fresh current message of body
length `len` starting at AVDT_MSG_OFFSET: the list of fragments written to
the transport.  A congested channel sends nothing. -/
def avdt_msg_send (cong : Bool) (peer_mtu len : Nat) : List AvdtFrag :=
  if cong then []
  else avdt_msg_send_loop peer_mtu (len + 1) AVDT_MSG_OFFSET len

/-- Modelled from the spec: the first-fragment number-of-signal-packets
value the spec's fragmentation rule prescribes,
nosp = ceil((len + 1) / (peer_mtu − 1)) + 1. -/
def spec_nosp (len peer_mtu : Nat) : Nat :=
  (len + 1 + (peer_mtu - 1) - 1) / (peer_mtu - 1) + 1

/-! Parsers (avdt_msg_prs_*). -/

/-- Table avdt_msg_ie_len_min of per-category minimum payload lengths. -/
def avdt_msg_ie_len_min (e : Nat) : Nat :=
  [0, AVDT_LEN_TRANS_MIN, AVDT_LEN_REPORT_MIN, AVDT_LEN_RECOV_MIN,
   AVDT_LEN_PROTECT_MIN, AVDT_LEN_HDRCMP_MIN, AVDT_LEN_MUX_MIN,
   AVDT_LEN_CODEC_MIN, AVDT_LEN_DELAY_RPT_MIN].getD e 0

/-- Table avdt_msg_ie_len_max of per-category maximum payload lengths. -/
def avdt_msg_ie_len_max (e : Nat) : Nat :=
  [0, AVDT_LEN_TRANS_MAX, AVDT_LEN_REPORT_MAX, AVDT_LEN_RECOV_MAX,
   AVDT_LEN_PROTECT_MAX, AVDT_LEN_HDRCMP_MAX, AVDT_LEN_MUX_MAX,
   AVDT_LEN_CODEC_MAX, AVDT_LEN_DELAY_RPT_MAX].getD e 0

/-- Table avdt_msg_ie_err of per-category error codes. -/
def avdt_msg_ie_err (e : Nat) : Nat :=
  [0, AVDT_ERR_MEDIA_TRANS, AVDT_ERR_LENGTH, AVDT_ERR_RECOV_FMT,
   AVDT_ERR_CP_FMT, AVDT_ERR_ROHC_FMT, AVDT_ERR_MUX_FMT,
   AVDT_ERR_SERVICE, AVDT_ERR_SERVICE].getD e 0

/-- The AvdtpSepConfig fields the parser writes. -/
structure AvdtpSepConfig where
  psc_mask : Nat := 0
  num_codec : Nat := 0
  num_protect : Nat := 0
  recov_type : Nat := 0
  recov_mrws : Nat := 0
  recov_mnmp : Nat := 0
  hdrcmp_mask : Nat := 0
  codec_info : List Nat := []
  protect_info : List Nat := []
deriving DecidableEq, Repr

/-- Embeds the while-loop of avdt_msg_prs_cfg (avdt_msg.cc).  `elem0`
carries the value of the `elem` local entering the iteration (written to
the error-parameter output on every exit); the result is
(err, cfg, elem). -/
def avdt_msg_prs_cfg_loop (sig_id : Nat) (cfg : AvdtpSepConfig)
    (protect_offset elem0 : Nat) (bytes : List Nat) :
    Nat × AvdtpSepConfig × Nat :=
  match bytes with
  | [] => (0, cfg, elem0)
  | [_] => (AVDT_ERR_PAYLOAD, cfg, elem0)
  | elem :: elem_len :: rest =>
    if elem = 0 ∨ elem > AVDT_CAT_MAX_CUR then
      if sig_id = AVDT_SIG_SETCONFIG ∨ sig_id = AVDT_SIG_RECONFIG then
        (AVDT_ERR_CATEGORY, cfg, elem)
      else
        avdt_msg_prs_cfg_loop sig_id cfg protect_offset elem (rest.drop elem_len)
    else if elem_len > avdt_msg_ie_len_max elem ∨
            elem_len < avdt_msg_ie_len_min elem then
      (avdt_msg_ie_err elem, cfg, elem)
    else
      let cfg := { cfg with psc_mask := cfg.psc_mask ||| (1 <<< elem) }
      if elem = AVDT_CAT_RECOV then
        if rest.length < 3 then (AVDT_ERR_PAYLOAD, cfg, elem)
        else
          let cfg := { cfg with recov_type := rest.getD 0 0,
                                recov_mrws := rest.getD 1 0,
                                recov_mnmp := rest.getD 2 0 }
          if cfg.recov_type ≠ AVDT_RECOV_RFC2733 then
            (AVDT_ERR_RECOV_TYPE, cfg, elem)
          else if cfg.recov_mrws < AVDT_RECOV_MRWS_MIN ∨
                  cfg.recov_mrws > AVDT_RECOV_MRWS_MAX ∨
                  cfg.recov_mnmp < AVDT_RECOV_MNMP_MIN ∨
                  cfg.recov_mnmp > AVDT_RECOV_MNMP_MAX then
            (AVDT_ERR_RECOV_FMT, cfg, elem)
          else
            avdt_msg_prs_cfg_loop sig_id cfg protect_offset elem (rest.drop 3)
      else if elem = AVDT_CAT_PROTECT then
        let cfg := { cfg with psc_mask := clear16 cfg.psc_mask AVDT_PSC_PROTECT }
        if elem_len > rest.length then (AVDT_ERR_LENGTH, cfg, elem)
        else
          let st :=
            if elem_len + protect_offset < AVDT_PROTECT_SIZE then
              ({ cfg with num_protect := cfg.num_protect + 1,
                          protect_info :=
                            cfg.protect_info ++ elem_len :: rest.take elem_len },
               protect_offset + 1 + elem_len)
            else (cfg, protect_offset)
          avdt_msg_prs_cfg_loop sig_id st.1 st.2 elem (rest.drop elem_len)
      else if elem = AVDT_CAT_HDRCMP then
        if rest.length < 1 then (AVDT_ERR_PAYLOAD, cfg, elem)
        else
          let cfg := { cfg with hdrcmp_mask := rest.getD 0 0 }
          avdt_msg_prs_cfg_loop sig_id cfg protect_offset elem (rest.drop 1)
      else if elem = AVDT_CAT_CODEC then
        let cfg := { cfg with psc_mask := clear16 cfg.psc_mask AVDT_PSC_CODEC }
        let tmp := if elem_len ≥ AVDT_CODEC_SIZE then AVDT_CODEC_SIZE - 1
                   else elem_len
        if tmp > rest.length then (AVDT_ERR_LENGTH, cfg, elem)
        else
          let cfg := { cfg with num_codec := cfg.num_codec + 1,
                                codec_info := elem_len :: rest.take tmp }
          avdt_msg_prs_cfg_loop sig_id cfg protect_offset elem (rest.drop elem_len)
      else if elem = AVDT_CAT_DELAY_RPT then
        avdt_msg_prs_cfg_loop sig_id cfg protect_offset elem rest
      else
        avdt_msg_prs_cfg_loop sig_id cfg protect_offset elem (rest.drop elem_len)
termination_by bytes.length
decreasing_by
  all_goals simp [List.length_drop]
  all_goals omega

/-- Embeds avdt_msg_prs_cfg (avdt_msg.cc): the null-destination check and
the parse loop on a zeroed configuration. -/
def avdt_msg_prs_cfg (has_cfg : Bool) (bytes : List Nat) (sig_id : Nat) :
    Nat × AvdtpSepConfig × Nat :=
  if !has_cfg then (AVDT_ERR_BAD_STATE, {}, 0)
  else avdt_msg_prs_cfg_loop sig_id {} 0 0 bytes

/-- One SEP entry of a discover response (tAVDT_SEP_INFO). -/
structure TAvdtSepInfo where
  seid : Nat
  in_use : Nat
  media_type : Nat
  tsep : Nat
deriving DecidableEq, Repr

/-- Modelled from the spec: the two-byte SEP-entry field extraction of the
AVDT_MSG_PRS_DISC macro (avdt_int.h, not among the sources), per the §4.1
wire format. -/
def avdt_msg_prs_disc_entry (b0 b1 : Nat) : TAvdtSepInfo :=
  ⟨b0 >>> 2, (b0 >>> 1) &&& 1, b1 >>> 4, (b1 >>> 3) &&& 1⟩

/-- Embeds the for-loop of avdt_msg_prs_discover_rsp: parse `n` entries,
stopping with AVDT_ERR_SEID at the first entry whose SEID is out of
range. -/
def avdt_msg_prs_discover_rsp_loop : List Nat → Nat → Nat × List TAvdtSepInfo
  | b0 :: b1 :: rest, n+1 =>
    let e := avdt_msg_prs_disc_entry b0 b1
    if e.seid < AVDT_SEID_MIN ∨ e.seid > AVDT_SEID_MAX then
      (AVDT_ERR_SEID, [e])
    else
      let r := avdt_msg_prs_discover_rsp_loop rest n
      (r.1, e :: r.2)
  | _, _ => (0, [])

/-- Embeds avdt_msg_prs_discover_rsp (avdt_msg.cc): `num_seps` is the
caller-supplied capacity, clamped to the number of entries the body can
hold. -/
def avdt_msg_prs_discover_rsp (num_seps : Nat) (bytes : List Nat) :
    Nat × List TAvdtSepInfo :=
  avdt_msg_prs_discover_rsp_loop bytes (min num_seps (bytes.length / 2))

/-- Whether the i-th SEP entry of a discover-response body has a SEID
outside the valid range AVDT_SEID_MIN .. AVDT_SEID_MAX. -/
def discSeidBad (bytes : List Nat) (i : Nat) : Bool :=
  let s := bytes.getD (2 * i) 0 >>> 2
  s < AVDT_SEID_MIN || s > AVDT_SEID_MAX

/-- The tAVDT_MSG fields the parsers write, flattened. -/
structure TAvdtMsg where
  label : Nat := 0
  sig_id : Nat := 0
  err_code : Nat := 0
  err_param : Nat := 0
  seid : Nat := 0
  int_seid : Nat := 0
  delay : Nat := 0
  num_seps : Nat := 0
  seid_list : List Nat := []
  cfg : AvdtpSepConfig := {}
  sep_info : List TAvdtSepInfo := []
  sec_len : Nat := 0
deriving DecidableEq, Repr

/-- Embeds avdt_msg_prs_single (avdt_msg.cc).  `scb` is the oracle for
avdt_scb_by_hdl (outside the sources): whether a local SCB exists for a
handle. -/
def avdt_msg_prs_single (scb : Nat → Bool) (bytes : List Nat) :
    Nat × TAvdtMsg :=
  if bytes.length ≠ AVDT_LEN_SINGLE then (AVDT_ERR_LENGTH, {})
  else
    let seid := bytes.getD 0 0 >>> 2
    let msg : TAvdtMsg := { seid := seid }
    if !scb seid then (AVDT_ERR_SEID, msg) else (0, msg)

/-- Embeds avdt_msg_prs_setconfig_cmd (avdt_msg.cc). -/
def avdt_msg_prs_setconfig_cmd (scb : Nat → Bool) (bytes : List Nat) :
    Nat × TAvdtMsg :=
  if bytes.length < AVDT_LEN_SETCONFIG_MIN then (AVDT_ERR_LENGTH, {})
  else
    let seid := bytes.getD 0 0 >>> 2
    let int_seid := bytes.getD 1 0 >>> 2
    let msg : TAvdtMsg := { seid := seid, int_seid := int_seid }
    let err1 : Nat := if !scb seid then AVDT_ERR_SEID else 0
    let err2 : Nat :=
      if int_seid < AVDT_SEID_MIN ∨ int_seid > AVDT_SEID_MAX then AVDT_ERR_SEID
      else err1
    if err2 ≠ 0 then (err2, msg)
    else
      let r := avdt_msg_prs_cfg true (bytes.drop 2) AVDT_SIG_SETCONFIG
      let msg := { msg with cfg := r.2.1, err_param := r.2.2 }
      if r.1 ≠ 0 then (r.1, msg)
      else if clear16 msg.cfg.psc_mask AVDT_PSC ≠ 0 ∨ msg.cfg.num_codec = 0 then
        (AVDT_ERR_INVALID_CAP, msg)
      else (0, msg)

/-- Embeds avdt_msg_prs_reconfig_cmd (avdt_msg.cc). -/
def avdt_msg_prs_reconfig_cmd (scb : Nat → Bool) (bytes : List Nat) :
    Nat × TAvdtMsg :=
  if bytes.length < AVDT_LEN_RECONFIG_MIN then (AVDT_ERR_LENGTH, {})
  else
    let seid := bytes.getD 0 0 >>> 2
    let msg : TAvdtMsg := { seid := seid }
    if !scb seid then (AVDT_ERR_SEID, msg)
    else
      let r := avdt_msg_prs_cfg true (bytes.drop 1) AVDT_SIG_RECONFIG
      let msg := { msg with cfg := r.2.1, err_param := r.2.2 }
      if r.1 ≠ 0 then (r.1, msg)
      else if msg.cfg.psc_mask ≠ 0 ∨
              (msg.cfg.num_codec = 0 ∧ msg.cfg.num_protect = 0) then
        (AVDT_ERR_INVALID_CAP, msg)
      else (0, msg)

/-- Embeds the for-loop of avdt_msg_prs_multi: (err, err_param, list,
count). -/
def avdt_msg_prs_multi_loop (scb : Nat → Bool) :
    List Nat → Nat × Nat × List Nat × Nat
  | [] => (0, 0, [], 0)
  | b :: rest =>
    let s := b >>> 2
    if !scb s then (AVDT_ERR_SEID, s, [s], 0)
    else
      let r := avdt_msg_prs_multi_loop scb rest
      (r.1, r.2.1, s :: r.2.2.1, r.2.2.2 + 1)

/-- Embeds avdt_msg_prs_multi (avdt_msg.cc). -/
def avdt_msg_prs_multi (scb : Nat → Bool) (bytes : List Nat) :
    Nat × TAvdtMsg :=
  if bytes.length < AVDT_LEN_MULTI_MIN ∨ bytes.length > AVDT_NUM_SEPS then
    (AVDT_ERR_LENGTH, {})
  else
    let r := avdt_msg_prs_multi_loop scb bytes
    (r.1, { err_param := r.2.1, seid_list := r.2.2.1, num_seps := r.2.2.2 })

/-- Embeds avdt_msg_prs_security_cmd (avdt_msg.cc). -/
def avdt_msg_prs_security_cmd (scb : Nat → Bool) (bytes : List Nat) :
    Nat × TAvdtMsg :=
  if bytes.length < AVDT_LEN_SECURITY_MIN then (AVDT_ERR_LENGTH, {})
  else
    let seid := bytes.getD 0 0 >>> 2
    let msg : TAvdtMsg := { seid := seid }
    if !scb seid then (AVDT_ERR_SEID, msg)
    else (0, { msg with sec_len := bytes.length - 1 })

/-- Embeds avdt_msg_prs_svccap (avdt_msg.cc). -/
def avdt_msg_prs_svccap (has_cfg : Bool) (bytes : List Nat) :
    Nat × TAvdtMsg :=
  let r := avdt_msg_prs_cfg has_cfg bytes AVDT_SIG_GETCAP
  let cfg := if has_cfg then { r.2.1 with psc_mask := r.2.1.psc_mask &&& AVDT_LEG_PSC }
             else r.2.1
  (r.1, { cfg := cfg, err_param := r.2.2 })

/-- Embeds avdt_msg_prs_all_svccap (avdt_msg.cc). -/
def avdt_msg_prs_all_svccap (has_cfg : Bool) (bytes : List Nat) :
    Nat × TAvdtMsg :=
  let r := avdt_msg_prs_cfg has_cfg bytes AVDT_SIG_GET_ALLCAP
  let cfg := if has_cfg then { r.2.1 with psc_mask := r.2.1.psc_mask &&& AVDT_MSG_PSC_MASK }
             else r.2.1
  (r.1, { cfg := cfg, err_param := r.2.2 })

/-- Embeds avdt_msg_prs_security_rsp (avdt_msg.cc). -/
def avdt_msg_prs_security_rsp (bytes : List Nat) : Nat × TAvdtMsg :=
  (0, { sec_len := bytes.length })

/-- Embeds avdt_msg_prs_delay_rpt (avdt_msg.cc). -/
def avdt_msg_prs_delay_rpt (scb : Nat → Bool) (bytes : List Nat) :
    Nat × TAvdtMsg :=
  if bytes.length ≠ AVDT_LEN_DELAY_RPT then (AVDT_ERR_LENGTH, {})
  else
    let seid := bytes.getD 0 0 >>> 2
    let msg : TAvdtMsg := { seid := seid }
    if !scb seid then (AVDT_ERR_SEID, msg)
    else (0, { msg with delay := bytes.getD 1 0 * 256 + bytes.getD 2 0 })

/-- Embeds avdt_msg_prs_rej (avdt_msg.cc). -/
def avdt_msg_prs_rej (bytes : List Nat) (sig : Nat) : Nat × TAvdtMsg :=
  let st :=
    if bytes.length > 0 then
      if sig = AVDT_SIG_SETCONFIG ∨ sig = AVDT_SIG_RECONFIG then
        (bytes.drop 1, ({ err_param := bytes.getD 0 0 } : TAvdtMsg))
      else if sig = AVDT_SIG_START ∨ sig = AVDT_SIG_SUSPEND then
        (bytes.drop 1, ({ err_param := bytes.getD 0 0 >>> 2 } : TAvdtMsg))
      else (bytes, ({} : TAvdtMsg))
    else (bytes, ({} : TAvdtMsg))
  if st.1.length < 1 then (AVDT_ERR_LENGTH, st.2)
  else (0, { st.2 with err_code := st.1.getD 0 0 })

/-! Dispatch (avdt_msg_ind) and its event tables. -/

/-- CCB-event marker bit AVDT_CCB_MKR. -/
def AVDT_CCB_MKR : Nat := 0x80

/-- Modelled from the spec: the SCB and CCB message event codes (avdt_int.h
enums, not among the sources).  Their exact values are immaterial to the
dispatch logic; what matters is that SCB events are nonzero and carry no
AVDT_CCB_MKR bit while CCB events carry it, and that the rej table holds 0
for delay report. -/
def AVDT_SCB_MSG_SETCONFIG_CMD_EVT : Nat := 1

def AVDT_SCB_MSG_GETCONFIG_CMD_EVT : Nat := 2

def AVDT_SCB_MSG_RECONFIG_CMD_EVT : Nat := 3

def AVDT_SCB_MSG_OPEN_CMD_EVT : Nat := 4

def AVDT_SCB_MSG_CLOSE_CMD_EVT : Nat := 5

def AVDT_SCB_MSG_ABORT_CMD_EVT : Nat := 6

def AVDT_SCB_MSG_SECURITY_CMD_EVT : Nat := 7

def AVDT_SCB_MSG_DELAY_RPT_CMD_EVT : Nat := 8

def AVDT_SCB_MSG_SETCONFIG_RSP_EVT : Nat := 9

def AVDT_SCB_MSG_GETCONFIG_RSP_EVT : Nat := 10

def AVDT_SCB_MSG_RECONFIG_RSP_EVT : Nat := 11

def AVDT_SCB_MSG_OPEN_RSP_EVT : Nat := 12

def AVDT_SCB_MSG_CLOSE_RSP_EVT : Nat := 13

def AVDT_SCB_MSG_ABORT_RSP_EVT : Nat := 14

def AVDT_SCB_MSG_SECURITY_RSP_EVT : Nat := 15

def AVDT_SCB_MSG_DELAY_RPT_RSP_EVT : Nat := 16

def AVDT_SCB_MSG_SETCONFIG_REJ_EVT : Nat := 17

def AVDT_SCB_MSG_OPEN_REJ_EVT : Nat := 18

def AVDT_CCB_MSG_DISCOVER_CMD_EVT : Nat := 1

def AVDT_CCB_MSG_GETCAP_CMD_EVT : Nat := 2

def AVDT_CCB_MSG_START_CMD_EVT : Nat := 3

def AVDT_CCB_MSG_SUSPEND_CMD_EVT : Nat := 4

def AVDT_CCB_MSG_DISCOVER_RSP_EVT : Nat := 5

def AVDT_CCB_MSG_GETCAP_RSP_EVT : Nat := 6

def AVDT_CCB_MSG_START_RSP_EVT : Nat := 7

def AVDT_CCB_MSG_SUSPEND_RSP_EVT : Nat := 8

/-- Table avdt_msg_cmd_2_evt, indexed by sig − 1. -/
def avdt_msg_cmd_2_evt (sig : Nat) : Nat :=
  [AVDT_CCB_MSG_DISCOVER_CMD_EVT + AVDT_CCB_MKR,
   AVDT_CCB_MSG_GETCAP_CMD_EVT + AVDT_CCB_MKR,
   AVDT_SCB_MSG_SETCONFIG_CMD_EVT,
   AVDT_SCB_MSG_GETCONFIG_CMD_EVT,
   AVDT_SCB_MSG_RECONFIG_CMD_EVT,
   AVDT_SCB_MSG_OPEN_CMD_EVT,
   AVDT_CCB_MSG_START_CMD_EVT + AVDT_CCB_MKR,
   AVDT_SCB_MSG_CLOSE_CMD_EVT,
   AVDT_CCB_MSG_SUSPEND_CMD_EVT + AVDT_CCB_MKR,
   AVDT_SCB_MSG_ABORT_CMD_EVT,
   AVDT_SCB_MSG_SECURITY_CMD_EVT,
   AVDT_CCB_MSG_GETCAP_CMD_EVT + AVDT_CCB_MKR,
   AVDT_SCB_MSG_DELAY_RPT_CMD_EVT].getD (sig - 1) 0

/-- Table avdt_msg_rsp_2_evt, indexed by sig − 1. -/
def avdt_msg_rsp_2_evt (sig : Nat) : Nat :=
  [AVDT_CCB_MSG_DISCOVER_RSP_EVT + AVDT_CCB_MKR,
   AVDT_CCB_MSG_GETCAP_RSP_EVT + AVDT_CCB_MKR,
   AVDT_SCB_MSG_SETCONFIG_RSP_EVT,
   AVDT_SCB_MSG_GETCONFIG_RSP_EVT,
   AVDT_SCB_MSG_RECONFIG_RSP_EVT,
   AVDT_SCB_MSG_OPEN_RSP_EVT,
   AVDT_CCB_MSG_START_RSP_EVT + AVDT_CCB_MKR,
   AVDT_SCB_MSG_CLOSE_RSP_EVT,
   AVDT_CCB_MSG_SUSPEND_RSP_EVT + AVDT_CCB_MKR,
   AVDT_SCB_MSG_ABORT_RSP_EVT,
   AVDT_SCB_MSG_SECURITY_RSP_EVT,
   AVDT_CCB_MSG_GETCAP_RSP_EVT + AVDT_CCB_MKR,
   AVDT_SCB_MSG_DELAY_RPT_RSP_EVT].getD (sig - 1) 0

/-- Table avdt_msg_rej_2_evt, indexed by sig − 1. -/
def avdt_msg_rej_2_evt (sig : Nat) : Nat :=
  [AVDT_CCB_MSG_DISCOVER_RSP_EVT + AVDT_CCB_MKR,
   AVDT_CCB_MSG_GETCAP_RSP_EVT + AVDT_CCB_MKR,
   AVDT_SCB_MSG_SETCONFIG_REJ_EVT,
   AVDT_SCB_MSG_GETCONFIG_RSP_EVT,
   AVDT_SCB_MSG_RECONFIG_RSP_EVT,
   AVDT_SCB_MSG_OPEN_REJ_EVT,
   AVDT_CCB_MSG_START_RSP_EVT + AVDT_CCB_MKR,
   AVDT_SCB_MSG_CLOSE_RSP_EVT,
   AVDT_CCB_MSG_SUSPEND_RSP_EVT + AVDT_CCB_MKR,
   AVDT_SCB_MSG_ABORT_RSP_EVT,
   AVDT_SCB_MSG_SECURITY_RSP_EVT,
   AVDT_CCB_MSG_GETCAP_RSP_EVT + AVDT_CCB_MKR,
   0].getD (sig - 1) 0

/-- The outstanding command p_curr_cmd of a CCB: its signal (the buffer
event field), its stamped label, and the SCB handle stored in the first
buffer byte. -/
structure CurrCmd where
  sig : Nat
  label : Nat
  scb_hdl : Nat
deriving DecidableEq, Repr

/-- Environment of avdt_msg_ind: the SCB-lookup oracle, the outstanding
command, and the procedure data the application supplied for a pending
discover/getcap procedure. -/
structure IndEnv where
  scb_exists : Nat → Bool
  p_curr_cmd : Option CurrCmd
  proc_param : Nat
  proc_data_present : Bool

/-- Observable effects of avdt_msg_ind: the reply it queues, the event it
dispatches, and whether the received-response event follows. -/
structure IndEffects where
  sent_grej : Bool := false
  sent_rej : Bool := false
  ccb_evt : Option Nat := none
  scb_evt : Option Nat := none
  handle_rsp : Bool := false
deriving DecidableEq, Repr

/-- Command parser dispatch, table avdt_msg_prs_cmd indexed by sig − 1. -/
def avdt_parse_cmd (env : IndEnv) (sig : Nat) (body : List Nat) :
    Nat × TAvdtMsg :=
  if sig = AVDT_SIG_DISCOVER then (0, {})
  else if sig = AVDT_SIG_GETCAP then avdt_msg_prs_single env.scb_exists body
  else if sig = AVDT_SIG_SETCONFIG then
    avdt_msg_prs_setconfig_cmd env.scb_exists body
  else if sig = AVDT_SIG_GETCONFIG then avdt_msg_prs_single env.scb_exists body
  else if sig = AVDT_SIG_RECONFIG then
    avdt_msg_prs_reconfig_cmd env.scb_exists body
  else if sig = AVDT_SIG_OPEN then avdt_msg_prs_single env.scb_exists body
  else if sig = AVDT_SIG_START then avdt_msg_prs_multi env.scb_exists body
  else if sig = AVDT_SIG_CLOSE then avdt_msg_prs_single env.scb_exists body
  else if sig = AVDT_SIG_SUSPEND then avdt_msg_prs_multi env.scb_exists body
  else if sig = AVDT_SIG_ABORT then avdt_msg_prs_single env.scb_exists body
  else if sig = AVDT_SIG_SECURITY then
    avdt_msg_prs_security_cmd env.scb_exists body
  else if sig = AVDT_SIG_GET_ALLCAP then avdt_msg_prs_single env.scb_exists body
  else avdt_msg_prs_delay_rpt env.scb_exists body

/-- Response parser dispatch, table avdt_msg_prs_rsp indexed by sig − 1,
together with the destination setup of avdt_msg_ind for the parsed
structures. -/
def avdt_parse_rsp (env : IndEnv) (sig : Nat) (body : List Nat) :
    Nat × TAvdtMsg :=
  if sig = AVDT_SIG_DISCOVER then
    let r := avdt_msg_prs_discover_rsp env.proc_param body
    (r.1, { sep_info := r.2, num_seps := r.2.length })
  else if sig = AVDT_SIG_GETCAP then
    avdt_msg_prs_svccap env.proc_data_present body
  else if sig = AVDT_SIG_GETCONFIG then avdt_msg_prs_all_svccap true body
  else if sig = AVDT_SIG_SECURITY then avdt_msg_prs_security_rsp body
  else if sig = AVDT_SIG_GET_ALLCAP then
    avdt_msg_prs_all_svccap env.proc_data_present body
  else (0, {})

/-- Dispatch of a mapped event to the CCB or SCB state machine, the tail of
avdt_msg_ind. -/
def avdt_dispatch (env : IndEnv) (evt scb_hdl : Nat) (hrsp : Bool) :
    IndEffects :=
  if evt &&& AVDT_CCB_MKR ≠ 0 then
    { ccb_evt := some (clear16 evt AVDT_CCB_MKR), handle_rsp := hrsp }
  else if evt ≠ 0 ∧ env.scb_exists scb_hdl then
    { scb_evt := some evt, handle_rsp := hrsp }
  else { handle_rsp := hrsp }

/-- Embeds avdt_msg_ind (avdt_msg.cc) applied to an already reassembled
message buffer `bytes` (whose length is the buffer length). -/
def avdt_msg_ind (env : IndEnv) (bytes : List Nat) : IndEffects :=
  let b0 := bytes.getD 0 0
  let label := b0 >>> 4
  let msg_type := b0 &&& 3
  if msg_type = AVDT_MSG_TYPE_GRJ then {}
  else if msg_type = AVDT_MSG_TYPE_REJ ∧ bytes.length = AVDT_LEN_GEN_REJ then
    match env.p_curr_cmd with
    | none => {}
    | some cmd =>
      if cmd.label = label then
        avdt_dispatch env (avdt_msg_rej_2_evt cmd.sig) cmd.scb_hdl true
      else {}
  else
    let sig := bytes.getD 1 0 &&& 0x3F
    let bad_sig := sig = 0 ∨ sig > AVDT_SIG_MAX
    let mismatch : Bool :=
      (msg_type == AVDT_MSG_TYPE_RSP || msg_type == AVDT_MSG_TYPE_REJ) &&
      (match env.p_curr_cmd with
       | none => true
       | some c => c.sig != sig)
    if bad_sig then
      { sent_grej := msg_type = AVDT_MSG_TYPE_CMD }
    else if mismatch then {}
    else
      let body := bytes.drop 2
      let pr :=
        if msg_type = AVDT_MSG_TYPE_CMD then
          (avdt_parse_cmd env sig body, avdt_msg_cmd_2_evt sig)
        else if msg_type = AVDT_MSG_TYPE_RSP then
          (avdt_parse_rsp env sig body, avdt_msg_rsp_2_evt sig)
        else
          (avdt_msg_prs_rej body sig, avdt_msg_rej_2_evt sig)
      if pr.1.1 ≠ 0 then
        { sent_rej := msg_type = AVDT_MSG_TYPE_CMD ∧ sig ≠ AVDT_SIG_ABORT }
      else
        if msg_type = AVDT_MSG_TYPE_RSP ∨ msg_type = AVDT_MSG_TYPE_REJ then
          match env.p_curr_cmd with
          | some c =>
            if c.sig = sig ∧ c.label = label then
              avdt_dispatch env pr.2 c.scb_hdl true
            else {}
          | none => {}
        else avdt_dispatch env pr.2 pr.1.2.seid false

end Avdt

namespace Avct

/-- AVCTP API result codes (avct_api.h). -/
def AVCT_SUCCESS : Nat := 0

def AVCT_NO_RESOURCES : Nat := 1

def AVCT_BAD_HANDLE : Nat := 2

def AVCT_PID_IN_USE : Nat := 3

def AVCT_NOT_OPEN : Nat := 4

/-- Modelled from the spec: layer_specific selectors for control versus
browse traffic (avct_api.h, not among the sources). -/
def AVCT_DATA_CTRL : Nat := 1

def AVCT_DATA_BROWSE : Nat := 2

/-- The connection control block fields AVCT_MsgReq consults: whether the
CCB is bound to a link (p_lcb), whether a browse channel is open (p_bcb)
and whether one is allocated (the AVCT_ALOC_BCB bit). -/
structure AvctCcb where
  has_lcb : Bool
  has_bcb : Bool
  alloc_bcb : Bool
deriving DecidableEq, Repr

/-- The state machine a message is forwarded to. -/
inductive AvctTarget where
  | lcb
  | bcb
deriving DecidableEq, Repr

/-- Observable outcome of AVCT_MsgReq: the result code, whether the
message buffer was freed, and where the message was forwarded. -/
structure MsgReqResult where
  result : Nat
  freed : Bool
  forwarded : Option AvctTarget
deriving DecidableEq, Repr

/-- Embeds AVCT_MsgReq (avct_api source).  `ccb` is the avct_ccb_by_idx
lookup result for the handle, `has_msg` whether p_msg is non-null, and
`layer_specific` the channel selector of the message. -/
def AVCT_MsgReq (ccb : Option AvctCcb) (has_msg : Bool)
    (layer_specific : Nat) : MsgReqResult :=
  if !has_msg then ⟨AVCT_NO_RESOURCES, false, none⟩
  else
    match ccb with
    | none => ⟨AVCT_BAD_HANDLE, true, none⟩
    | some c =>
      if !c.has_lcb then ⟨AVCT_NOT_OPEN, true, none⟩
      else if layer_specific = AVCT_DATA_BROWSE then
        if !c.has_bcb && !c.alloc_bcb then ⟨AVCT_BAD_HANDLE, true, none⟩
        else ⟨AVCT_SUCCESS, false, some .bcb⟩
      else ⟨AVCT_SUCCESS, false, some .lcb⟩

end Avct

/-! Shared helper lemmas about the bit operations of the embeddings. -/

theorem land_lor_absorb (x k : Nat) : (x &&& k) ||| x = x := by
  apply Nat.eq_of_testBit_eq
  intro i
  simp only [Nat.testBit_or, Nat.testBit_and]
  cases hx : x.testBit i <;> simp

set_option maxRecDepth 4096 in
theorem comp8_land_eq_zero : ∀ m, m < 256 → (255 ^^^ m) &&& m = 0 := by decide

theorem clear8_lor_self (x m : Nat) : Smp.clear8 x m ||| x = x :=
  land_lor_absorb x (255 ^^^ m)

theorem nat_lor_self (x : Nat) : x ||| x = x := by
  apply Nat.eq_of_testBit_eq
  intro i
  simp [Nat.testBit_or]

theorem nat_lor_zero (x : Nat) : x ||| 0 = x := by
  apply Nat.eq_of_testBit_eq
  intro i
  simp [Nat.testBit_or]

theorem lor_land_distrib (x y m : Nat) :
    (x ||| y) &&& m = (x &&& m) ||| (y &&& m) := by
  apply Nat.eq_of_testBit_eq
  intro i
  simp only [Nat.testBit_and, Nat.testBit_or]
  cases x.testBit i <;> cases y.testBit i <;> cases m.testBit i <;> simp

theorem land_land_zero (x a b : Nat) (h : a &&& b = 0) :
    (x &&& a) &&& b = 0 := by
  rw [Nat.land_assoc, h]
  simp

theorem clear8_land_eq_zero (x m : Nat) (hm : m < 256) :
    Smp.clear8 x m &&& m = 0 := by
  unfold Smp.clear8
  rw [Nat.land_assoc, comp8_land_eq_zero m hm]
  simp

/-- C8: smp_proc_pair_fail records SMP_INVALID_PARAMETERS when the
received Pairing Failed body is shorter than two bytes and the peer reason
otherwise, and it never sends any PDU back to the peer. -/
theorem smp_proc_pair_fail_no_reply (cb : Smp.SmpCb) (len st : Nat) :
    (Smp.smp_proc_pair_fail cb len st).2.sent_opcodes = [] ∧
    (len < 2 →
      (Smp.smp_proc_pair_fail cb len st).1.status = Smp.SMP_INVALID_PARAMETERS) ∧
    (2 ≤ len → (Smp.smp_proc_pair_fail cb len st).1.status = st) := by
  unfold Smp.smp_proc_pair_fail
  by_cases h : len < 2 <;> simp [h]

/-- Witness for smp_proc_pair_fail_no_reply at a one-byte body. -/
theorem smp_proc_pair_fail_no_reply_witness :
    (Smp.smp_proc_pair_fail
      ⟨false, false, false, false, false, false, 0, 0, 0, 0, 0, 0⟩
      1 7).2.sent_opcodes = [] ∧
    (Smp.smp_proc_pair_fail
      ⟨false, false, false, false, false, false, 0, 0, 0, 0, 0, 0⟩
      1 7).1.status = Smp.SMP_INVALID_PARAMETERS := by
  have h := smp_proc_pair_fail_no_reply
    ⟨false, false, false, false, false, false, 0, 0, 0, 0, 0, 0⟩ 1 7
  exact ⟨h.1, h.2.1 (by decide)⟩

/-- C6: smp_process_pairing_public_key with a well-formed body fails with
SMP_PAIR_AUTH_FAIL — without setting the have-peer-public-key flag or
proceeding towards DHKey computation — exactly when the peer x-coordinate
equals the local one or the point fails ECC_ValidatePoint; otherwise it
records the key and sets the flag. -/
theorem smp_process_pairing_public_key_validation
    (px py lx : List Nat) (valid : Bool) :
    ((px = lx ∨ valid = false) →
      Smp.smp_process_pairing_public_key false px py lx valid =
        ⟨some Smp.SMP_PAIR_AUTH_FAIL, true, false, false⟩) ∧
    (px ≠ lx → valid = true →
      Smp.smp_process_pairing_public_key false px py lx valid =
        ⟨none, true, true, true⟩) := by
  constructor
  · rintro (h | h)
    · simp [Smp.smp_process_pairing_public_key, h]
    · subst h
      by_cases hx : px = lx <;>
        simp [Smp.smp_process_pairing_public_key, hx]
  · intro h hv
    subst hv
    simp [Smp.smp_process_pairing_public_key, h]

/-- Witness for smp_process_pairing_public_key_validation: an off-curve
point is rejected, a distinct valid point is accepted. -/
theorem smp_process_pairing_public_key_validation_witness :
    Smp.smp_process_pairing_public_key false [1] [2] [3] false =
      ⟨some Smp.SMP_PAIR_AUTH_FAIL, true, false, false⟩ ∧
    Smp.smp_process_pairing_public_key false [1] [2] [3] true =
      ⟨none, true, true, true⟩ :=
  ⟨(smp_process_pairing_public_key_validation [1] [2] [3] false).1
      (Or.inr rfl),
   (smp_process_pairing_public_key_validation [1] [2] [3] true).2
      (by decide) rfl⟩

/-- C1: with secure_connections_only_mode_required set, whenever the
selected association model is not a Secure Connections model
(le_secure_connections_mode_is_used comes back false from the selection)
or is SC Just Works, smp_proc_pair_cmd raises AUTH_CMPL with
SMP_PAIR_AUTH_FAIL in both the responder branch that selects a model and
the initiator branch, and the remaining responder path through
smp_process_io_response does the same, so pairing never proceeds under
Just Works while SC-only mode is required. -/
theorem smp_proc_pair_cmd_sc_only_gate (cb : Smp.SmpCb) (sel_model : Nat)
    (sc_used oob_ok : Bool)
    (hsc : cb.secure_connections_only_mode_required = true)
    (hgate : sc_used = false ∨ sel_model = Smp.SMP_MODEL_SEC_CONN_JUSTWORKS)
    (hpts : Smp.pts_test_send_authentication_complete_failure cb.cert_failure
              = false) :
    (cb.role_slave = true → cb.flags_we_started_dd = true →
      Smp.smp_proc_pair_cmd cb false false sel_model sc_used =
        .authCmplEvt Smp.SMP_PAIR_AUTH_FAIL) ∧
    (cb.role_slave = false →
      Smp.smp_proc_pair_cmd cb false false sel_model sc_used =
        .authCmplEvt Smp.SMP_PAIR_AUTH_FAIL) ∧
    (cb.flags_we_started_dd = false →
      Smp.smp_process_io_response cb sel_model sc_used oob_ok =
        .authCmplEvt Smp.SMP_PAIR_AUTH_FAIL) := by
  refine ⟨?_, ?_, ?_⟩
  · intro h1 h2
    rcases hgate with hg | hg <;> subst hg <;>
      simp [Smp.smp_proc_pair_cmd, hsc, hpts, h1, h2]
  · intro h1
    rcases hgate with hg | hg <;> subst hg <;>
      simp [Smp.smp_proc_pair_cmd, hsc, hpts, h1]
  · intro h1
    rcases hgate with hg | hg <;> subst hg <;>
      simp [Smp.smp_process_io_response, hsc, h1]

/-- Witness for smp_proc_pair_cmd_sc_only_gate: an SC-only responder that
started with a security request, offered SC Just Works. -/
theorem smp_proc_pair_cmd_sc_only_gate_witness :
    Smp.smp_proc_pair_cmd
      ⟨true, true, false, true, true, false, 7, 7, 7, 7, 0, 0⟩
      false false Smp.SMP_MODEL_SEC_CONN_JUSTWORKS true =
      .authCmplEvt Smp.SMP_PAIR_AUTH_FAIL :=
  (smp_proc_pair_cmd_sc_only_gate
    ⟨true, true, false, true, true, false, 7, 7, 7, 7, 0, 0⟩
    Smp.SMP_MODEL_SEC_CONN_JUSTWORKS true false
    rfl (Or.inr rfl) (by decide)).1 rfl rfl

/-- C7 (amended): smp_update_key_mask only ever clears mask bits, and for
ENC or LK in LE Secure Connections / SMP-over-BR mode it clears the bit
from both masks; at smp_check_auth_req with encryption enabled in SC mode
the LK bit survives into distribution only when it was set in both masks.
The subset-of-the-established-intersection part of the original claim
fails at smp_check_auth_req, which forces the ENC bit on in both masks
(see the counterexample). -/
theorem smp_key_mask_update_amended (cb : Smp.SmpCb) (kt : Nat) (recv : Bool)
    (hkt : kt < 256) :
    ((Smp.smp_update_key_mask cb kt recv).local_i_key ||| cb.local_i_key =
        cb.local_i_key ∧
     (Smp.smp_update_key_mask cb kt recv).local_r_key ||| cb.local_r_key =
        cb.local_r_key) ∧
    ((cb.le_secure_connections_mode_is_used = true ∨ cb.smp_over_br = true) →
      (kt = Smp.SMP_SEC_KEY_TYPE_ENC ∨ kt = Smp.SMP_SEC_KEY_TYPE_LK) →
      (Smp.smp_update_key_mask cb kt recv).local_i_key &&& kt = 0 ∧
      (Smp.smp_update_key_mask cb kt recv).local_r_key &&& kt = 0) ∧
    (∀ ikey rkey : Nat, ∀ slave : Bool,
      ((Smp.smp_check_auth_req_masks true slave ikey rkey).1 &&&
          Smp.SMP_SEC_KEY_TYPE_LK ≠ 0 ∨
       (Smp.smp_check_auth_req_masks true slave ikey rkey).2 &&&
          Smp.SMP_SEC_KEY_TYPE_LK ≠ 0) →
      ikey &&& Smp.SMP_SEC_KEY_TYPE_LK ≠ 0 ∧
      rkey &&& Smp.SMP_SEC_KEY_TYPE_LK ≠ 0) := by
  refine ⟨?_, ?_, ?_⟩
  · unfold Smp.smp_update_key_mask
    split
    · simp [clear8_lor_self]
    · split <;> split <;> simp [clear8_lor_self, nat_lor_self]
  · intro hmode hk
    have hcond : ((cb.le_secure_connections_mode_is_used || cb.smp_over_br) &&
        (kt == Smp.SMP_SEC_KEY_TYPE_ENC || kt == Smp.SMP_SEC_KEY_TYPE_LK))
          = true := by
      rcases hmode with h | h <;> rcases hk with h2 | h2 <;> simp [h, h2]
    unfold Smp.smp_update_key_mask
    rw [if_pos hcond]
    exact ⟨clear8_land_eq_zero _ _ hkt, clear8_land_eq_zero _ _ hkt⟩
  · intro ikey rkey slave hprem
    have henc : (Smp.SMP_SEC_KEY_TYPE_ENC &&& Smp.SMP_SEC_KEY_TYPE_LK) = 0 := by
      decide
    have hid : ((Smp.SMP_SEC_KEY_TYPE_ID ||| Smp.SMP_SEC_KEY_TYPE_CSRK) &&&
        Smp.SMP_SEC_KEY_TYPE_LK) = 0 := by decide
    have hlk : Smp.SMP_SEC_KEY_TYPE_LK < 256 := by decide
    by_cases hc : ((ikey ||| Smp.SMP_SEC_KEY_TYPE_ENC) &&&
          Smp.SMP_SEC_KEY_TYPE_LK == 0 ||
        (rkey ||| Smp.SMP_SEC_KEY_TYPE_ENC) &&&
          Smp.SMP_SEC_KEY_TYPE_LK == 0) = true
    · exfalso
      have hmask : ∀ x : Nat,
          Smp.clear8 (x ||| Smp.SMP_SEC_KEY_TYPE_ENC)
            Smp.SMP_SEC_KEY_TYPE_LK &&& Smp.SMP_SEC_KEY_TYPE_LK = 0 :=
        fun x => clear8_land_eq_zero _ _ hlk
      rcases hprem with hp | hp <;>
        [skip; skip] <;>
        · apply hp
          cases slave <;>
            simp [Smp.smp_check_auth_req_masks, hc, hmask,
                  land_land_zero _ _ _ hid]
    · have hc2 := hc
      simp only [Bool.or_eq_true, not_or, beq_iff_eq] at hc2
      have hi : ikey &&& Smp.SMP_SEC_KEY_TYPE_LK ≠ 0 := by
        intro h0
        exact hc2.1 (by rw [lor_land_distrib, h0, henc]; simp)
      have hr : rkey &&& Smp.SMP_SEC_KEY_TYPE_LK ≠ 0 := by
        intro h0
        exact hc2.2 (by rw [lor_land_distrib, h0, henc]; simp)
      exact ⟨hi, hr⟩

/-- C7 counterexample: in SC mode with both masks holding only the ID bit
(the intersection established at the pairing exchange contains no ENC
bit), smp_check_auth_req forces the ENC bit on in both masks, so the
masks do not remain a subset of that intersection minus derived keys. -/
theorem smp_check_auth_req_forces_enc_cex :
    (Smp.smp_check_auth_req
        ⟨true, false, false, false, true, false, 2, 2, 0, 0, 0, 0⟩
        1).1.local_i_key &&& Smp.SMP_SEC_KEY_TYPE_ENC =
      Smp.SMP_SEC_KEY_TYPE_ENC ∧
    (Smp.smp_check_auth_req
        ⟨true, false, false, false, true, false, 2, 2, 0, 0, 0, 0⟩
        1).1.local_r_key &&& Smp.SMP_SEC_KEY_TYPE_ENC =
      Smp.SMP_SEC_KEY_TYPE_ENC ∧
    (2 : Nat) &&& Smp.SMP_SEC_KEY_TYPE_ENC = 0 := by decide

/-- Witness for smp_key_mask_update_amended: an SC-mode ENC update clears
the ENC bit from both masks, and LK survival demands the bit on both
sides. -/
theorem smp_key_mask_update_amended_witness :
    ((Smp.smp_update_key_mask
        ⟨true, false, false, false, true, false, 15, 15, 0, 0, 0, 0⟩
        Smp.SMP_SEC_KEY_TYPE_ENC false).local_i_key &&&
      Smp.SMP_SEC_KEY_TYPE_ENC = 0) ∧
    ((Smp.smp_update_key_mask
        ⟨true, false, false, false, true, false, 15, 15, 0, 0, 0, 0⟩
        Smp.SMP_SEC_KEY_TYPE_ENC false).local_r_key &&&
      Smp.SMP_SEC_KEY_TYPE_ENC = 0) ∧
    ((15 : Nat) &&& Smp.SMP_SEC_KEY_TYPE_LK ≠ 0) := by
  have h := smp_key_mask_update_amended
    ⟨true, false, false, false, true, false, 15, 15, 0, 0, 0, 0⟩
    Smp.SMP_SEC_KEY_TYPE_ENC false (by decide)
  have h2 := h.2.1 (Or.inl rfl) (Or.inl rfl)
  have h3 := h.2.2 15 15 true (Or.inl (by decide))
  exact ⟨h2.1, h2.2, h3.1⟩

/-- C10: AVCT_MsgReq returns AVCT_NO_RESOURCES on a null message;
AVCT_BAD_HANDLE, freeing the buffer, on an unmapped handle; AVCT_NOT_OPEN,
freeing, on a connection not bound to a link; AVCT_BAD_HANDLE, freeing,
on a browse message with neither an open nor an allocated browse channel;
and it forwards the message to the link or browse state machine exactly
when the result is AVCT_SUCCESS. -/
theorem AVCT_MsgReq_spec (ccb : Option Avct.AvctCcb) (has_msg : Bool)
    (ls : Nat) :
    (has_msg = false →
      Avct.AVCT_MsgReq ccb has_msg ls =
        ⟨Avct.AVCT_NO_RESOURCES, false, none⟩) ∧
    (has_msg = true → ccb = none →
      Avct.AVCT_MsgReq ccb has_msg ls = ⟨Avct.AVCT_BAD_HANDLE, true, none⟩) ∧
    (∀ c, has_msg = true → ccb = some c → c.has_lcb = false →
      Avct.AVCT_MsgReq ccb has_msg ls = ⟨Avct.AVCT_NOT_OPEN, true, none⟩) ∧
    (∀ c, has_msg = true → ccb = some c → c.has_lcb = true →
      ls = Avct.AVCT_DATA_BROWSE → c.has_bcb = false → c.alloc_bcb = false →
      Avct.AVCT_MsgReq ccb has_msg ls = ⟨Avct.AVCT_BAD_HANDLE, true, none⟩) ∧
    ((Avct.AVCT_MsgReq ccb has_msg ls).forwarded ≠ none ↔
      (Avct.AVCT_MsgReq ccb has_msg ls).result = Avct.AVCT_SUCCESS) := by
  refine ⟨?_, ?_, ?_, ?_, ?_⟩
  · intro h
    subst h
    simp [Avct.AVCT_MsgReq]
  · intro h h2
    subst h
    subst h2
    simp [Avct.AVCT_MsgReq]
  · intro c h h2 h3
    subst h
    subst h2
    simp [Avct.AVCT_MsgReq, h3]
  · intro c h h2 h3 h4 h5 h6
    subst h
    subst h2
    subst h4
    simp [Avct.AVCT_MsgReq, h3, h5, h6]
  · cases has_msg
    · simp [Avct.AVCT_MsgReq, Avct.AVCT_NO_RESOURCES, Avct.AVCT_SUCCESS]
    · cases ccb with
      | none =>
        simp [Avct.AVCT_MsgReq, Avct.AVCT_BAD_HANDLE, Avct.AVCT_SUCCESS]
      | some c =>
        cases hc : c.has_lcb
        · simp [Avct.AVCT_MsgReq, hc, Avct.AVCT_NOT_OPEN, Avct.AVCT_SUCCESS]
        · by_cases hls : ls = Avct.AVCT_DATA_BROWSE
          · cases hb : c.has_bcb <;> cases ha : c.alloc_bcb <;>
              simp [Avct.AVCT_MsgReq, hc, hls, hb, ha, Avct.AVCT_BAD_HANDLE,
                    Avct.AVCT_SUCCESS]
          · simp [Avct.AVCT_MsgReq, hc, hls, Avct.AVCT_SUCCESS]

/-- Witness for AVCT_MsgReq_spec: a browse message on a connection with a
link but no browse channel is refused with AVCT_BAD_HANDLE and freed. -/
theorem AVCT_MsgReq_spec_witness :
    Avct.AVCT_MsgReq (some ⟨true, false, false⟩) true Avct.AVCT_DATA_BROWSE =
      ⟨Avct.AVCT_BAD_HANDLE, true, none⟩ :=
  (AVCT_MsgReq_spec (some ⟨true, false, false⟩) true
      Avct.AVCT_DATA_BROWSE).2.2.2.1 ⟨true, false, false⟩
    rfl rfl rfl rfl rfl rfl

/-- C2 (amended): when a fresh message of body length len with
len > peer_mtu − 2 is sent over an uncongested channel, the first fragment
is a START packet whose number-of-signal-packets byte is
(len + 3 − peer_mtu) / (peer_mtu − 1) + 2 (C integer division), carrying
peer_mtu − 3 body bytes. -/
theorem avdt_msg_send_start_nosp (peer_mtu len : Nat) (_hm : 4 ≤ peer_mtu)
    (hl : peer_mtu - Avdt.AVDT_LEN_TYPE_SINGLE < len) :
    (Avdt.avdt_msg_send false peer_mtu len).head? =
      some ⟨Avdt.AVDT_PKT_TYPE_START,
            (len + Avdt.AVDT_LEN_TYPE_START - peer_mtu) / (peer_mtu - 1) + 2,
            peer_mtu - Avdt.AVDT_LEN_TYPE_START⟩ := by
  have h1 : ¬(Avdt.AVDT_MSG_OFFSET = Avdt.AVDT_MSG_OFFSET ∧
      len ≤ peer_mtu - Avdt.AVDT_LEN_TYPE_SINGLE) := by
    simp only [not_and]
    intro _
    omega
  have h2 : Avdt.AVDT_MSG_OFFSET = Avdt.AVDT_MSG_OFFSET ∧
      len > peer_mtu - Avdt.AVDT_LEN_TYPE_SINGLE := ⟨rfl, hl⟩
  have h3 : ¬(len ≤ peer_mtu - Avdt.AVDT_LEN_TYPE_SINGLE) := Nat.not_le.mpr hl
  simp [Avdt.avdt_msg_send, Avdt.avdt_msg_send_loop, h1, h2, h3]

/-- Witness for avdt_msg_send_start_nosp at peer_mtu = 10, len = 9. -/
theorem avdt_msg_send_start_nosp_witness :
    (Avdt.avdt_msg_send false 10 9).head? =
      some ⟨Avdt.AVDT_PKT_TYPE_START, 2, 7⟩ := by
  have h := avdt_msg_send_start_nosp 10 9 (by decide) (by decide)
  simpa using h

/-- C2 counterexample: at peer_mtu = 10 and len = 9 the sent START
fragment carries nosp = 2, while the spec formula
ceil((len + 1)/(peer_mtu − 1)) + 1 gives 3. -/
theorem avdt_msg_send_nosp_spec_cex :
    (Avdt.avdt_msg_send false 10 9).head? =
      some ⟨Avdt.AVDT_PKT_TYPE_START, 2, 7⟩ ∧
    Avdt.spec_nosp 9 10 = 3 ∧ (2 : Nat) ≠ 3 := by decide

/-- C5: an information element whose category id is 0 or greater than
AVDT_CAT_MAX_CUR makes the avdt_msg_prs_cfg loop stop immediately with
AVDT_ERR_CATEGORY and the offending category in the error-parameter
output when the enclosing signal is Set-Configuration or Reconfigure,
while under any other signal the element is skipped and parsing continues
unchanged and without error. -/
theorem avdt_msg_prs_cfg_unknown_category (sig : Nat)
    (cfg : Avdt.AvdtpSepConfig) (po e0 cat clen : Nat) (rest : List Nat)
    (hcat : cat = 0 ∨ Avdt.AVDT_CAT_MAX_CUR < cat) :
    ((sig = Avdt.AVDT_SIG_SETCONFIG ∨ sig = Avdt.AVDT_SIG_RECONFIG) →
      Avdt.avdt_msg_prs_cfg_loop sig cfg po e0 (cat :: clen :: rest) =
        (Avdt.AVDT_ERR_CATEGORY, cfg, cat)) ∧
    (sig ≠ Avdt.AVDT_SIG_SETCONFIG → sig ≠ Avdt.AVDT_SIG_RECONFIG →
      Avdt.avdt_msg_prs_cfg_loop sig cfg po e0 (cat :: clen :: rest) =
        Avdt.avdt_msg_prs_cfg_loop sig cfg po cat (rest.drop clen)) := by
  constructor
  · intro h
    rw [Avdt.avdt_msg_prs_cfg_loop]
    rw [if_pos hcat, if_pos h]
  · intro h1 h2
    rw [Avdt.avdt_msg_prs_cfg_loop]
    rw [if_pos hcat,
        if_neg (by rintro (h | h) <;> [exact h1 h; exact h2 h])]

/-- Witness for avdt_msg_prs_cfg_unknown_category: category 9 inside a
Set-Configuration stops with AVDT_ERR_CATEGORY; inside a
Get-Capabilities response it is skipped. -/
theorem avdt_msg_prs_cfg_unknown_category_witness :
    Avdt.avdt_msg_prs_cfg_loop Avdt.AVDT_SIG_SETCONFIG {} 0 0 [9, 1, 5] =
      (Avdt.AVDT_ERR_CATEGORY, {}, 9) ∧
    Avdt.avdt_msg_prs_cfg_loop Avdt.AVDT_SIG_GETCAP {} 0 0 [9, 1, 5] =
      Avdt.avdt_msg_prs_cfg_loop Avdt.AVDT_SIG_GETCAP {} 0 9 [] := by
  have h := avdt_msg_prs_cfg_unknown_category Avdt.AVDT_SIG_SETCONFIG
    {} 0 0 9 1 [5] (Or.inr (by decide))
  have h2 := avdt_msg_prs_cfg_unknown_category Avdt.AVDT_SIG_GETCAP
    {} 0 0 9 1 [5] (Or.inr (by decide))
  exact ⟨h.1 (Or.inl rfl), h2.2 (by decide) (by decide)⟩

theorem discSeidBad_cons (b0 b1 : Nat) (rest : List Nat) (i : Nat) :
    Avdt.discSeidBad (b0 :: b1 :: rest) (i + 1) = Avdt.discSeidBad rest i := by
  unfold Avdt.discSeidBad
  have h : 2 * (i + 1) = 2 * i + 1 + 1 := by omega
  rw [h]
  simp [List.getD_cons_succ]

theorem discSeidBad_zero (b0 b1 : Nat) (rest : List Nat) :
    Avdt.discSeidBad (b0 :: b1 :: rest) 0 = true ↔
      (b0 >>> 2 < Avdt.AVDT_SEID_MIN ∨ b0 >>> 2 > Avdt.AVDT_SEID_MAX) := by
  simp [Avdt.discSeidBad]

theorem avdt_prs_discover_loop_props :
    ∀ (n : Nat) (bytes : List Nat), 2 * n ≤ bytes.length →
      ((Avdt.avdt_msg_prs_discover_rsp_loop bytes n).2.length ≤ n) ∧
      ((Avdt.avdt_msg_prs_discover_rsp_loop bytes n).1 = Avdt.AVDT_ERR_SEID ↔
        ∃ i, i < n ∧ Avdt.discSeidBad bytes i = true) ∧
      ((Avdt.avdt_msg_prs_discover_rsp_loop bytes n).1 ≠ Avdt.AVDT_ERR_SEID →
        (Avdt.avdt_msg_prs_discover_rsp_loop bytes n).1 = 0 ∧
        (Avdt.avdt_msg_prs_discover_rsp_loop bytes n).2.length = n) ∧
      (∀ i, i < n → Avdt.discSeidBad bytes i = true →
        (∀ j, j < i → Avdt.discSeidBad bytes j = false) →
        (Avdt.avdt_msg_prs_discover_rsp_loop bytes n).2.length = i + 1) := by
  intro n
  induction n with
  | zero =>
    intro bytes _
    have h0 : Avdt.avdt_msg_prs_discover_rsp_loop bytes 0 = (0, []) := by
      cases bytes with
      | nil => rfl
      | cons a t => cases t with
        | nil => rfl
        | cons b r => rfl
    rw [h0]
    refine ⟨by simp, by simp [Avdt.AVDT_ERR_SEID], by simp, ?_⟩
    intro i hi
    omega
  | succ n ih =>
    intro bytes hlen
    match bytes with
    | [] => simp at hlen
    | [a] => simp at hlen; omega
    | b0 :: b1 :: rest =>
      have hlen2 : 2 * n ≤ rest.length := by
        simp at hlen
        omega
      have ihr := ih rest hlen2
      by_cases hbad : (Avdt.avdt_msg_prs_disc_entry b0 b1).seid <
          Avdt.AVDT_SEID_MIN ∨
          (Avdt.avdt_msg_prs_disc_entry b0 b1).seid > Avdt.AVDT_SEID_MAX
      · have heq : Avdt.avdt_msg_prs_discover_rsp_loop (b0 :: b1 :: rest)
            (n + 1) = (Avdt.AVDT_ERR_SEID, [Avdt.avdt_msg_prs_disc_entry b0 b1]) := by
          rw [Avdt.avdt_msg_prs_discover_rsp_loop]
          rw [if_pos hbad]
        have hbad0 : Avdt.discSeidBad (b0 :: b1 :: rest) 0 = true := by
          rw [discSeidBad_zero]
          simpa [Avdt.avdt_msg_prs_disc_entry] using hbad
        rw [heq]
        refine ⟨by simp, ?_, ?_, ?_⟩
        · constructor
          · intro _
            exact ⟨0, Nat.succ_pos n, hbad0⟩
          · intro _
            rfl
        · intro h
          exact absurd rfl h
        · intro i hi hbi hall
          match i with
          | 0 => simp
          | j + 1 =>
            have := hall 0 (Nat.succ_pos j)
            rw [hbad0] at this
            exact absurd this (by simp)
      · have heq : Avdt.avdt_msg_prs_discover_rsp_loop (b0 :: b1 :: rest)
            (n + 1) =
            ((Avdt.avdt_msg_prs_discover_rsp_loop rest n).1,
             Avdt.avdt_msg_prs_disc_entry b0 b1 ::
               (Avdt.avdt_msg_prs_discover_rsp_loop rest n).2) := by
          rw [Avdt.avdt_msg_prs_discover_rsp_loop]
          rw [if_neg hbad]
        have hgood0 : Avdt.discSeidBad (b0 :: b1 :: rest) 0 = false := by
          rw [← Bool.not_eq_true]
          rw [discSeidBad_zero]
          simpa [Avdt.avdt_msg_prs_disc_entry] using hbad
        rw [heq]
        refine ⟨?_, ?_, ?_, ?_⟩
        · simp only [List.length_cons]
          exact Nat.succ_le_succ ihr.1
        · simp only []
          rw [ihr.2.1]
          constructor
          · rintro ⟨i, hi, hb⟩
            exact ⟨i + 1, Nat.succ_lt_succ hi, by rw [discSeidBad_cons]; exact hb⟩
          · rintro ⟨i, hi, hb⟩
            match i with
            | 0 =>
              rw [hgood0] at hb
              exact absurd hb (by simp)
            | j + 1 =>
              rw [discSeidBad_cons] at hb
              exact ⟨j, Nat.lt_of_succ_lt_succ hi, hb⟩
        · intro h
          have := ihr.2.2.1 h
          simp only [List.length_cons]
          exact ⟨this.1, by rw [this.2]⟩
        · intro i hi hbi hall
          match i with
          | 0 =>
            rw [hgood0] at hbi
            exact absurd hbi (by simp)
          | j + 1 =>
            rw [discSeidBad_cons] at hbi
            have hall2 : ∀ k, k < j → Avdt.discSeidBad rest k = false := by
              intro k hk
              have := hall (k + 1) (Nat.succ_lt_succ hk)
              rw [discSeidBad_cons] at this
              exact this
            have := ihr.2.2.2 j (Nat.lt_of_succ_lt_succ hi) hbi hall2
            simp only [List.length_cons]
            rw [this]

/-- C9: avdt_msg_prs_discover_rsp writes at most
min(capacity, body length / 2) SEP entries; it returns AVDT_ERR_SEID
exactly when one of those entries has a SEID outside
AVDT_SEID_MIN .. AVDT_SEID_MAX, and stops at the first such entry. -/
theorem avdt_msg_prs_discover_rsp_bounds (cap : Nat) (bytes : List Nat) :
    ((Avdt.avdt_msg_prs_discover_rsp cap bytes).2.length ≤
        min cap (bytes.length / 2)) ∧
    ((Avdt.avdt_msg_prs_discover_rsp cap bytes).1 = Avdt.AVDT_ERR_SEID ↔
      ∃ i, i < min cap (bytes.length / 2) ∧
        Avdt.discSeidBad bytes i = true) ∧
    ((Avdt.avdt_msg_prs_discover_rsp cap bytes).1 ≠ Avdt.AVDT_ERR_SEID →
      (Avdt.avdt_msg_prs_discover_rsp cap bytes).1 = 0 ∧
      (Avdt.avdt_msg_prs_discover_rsp cap bytes).2.length =
        min cap (bytes.length / 2)) ∧
    (∀ i, i < min cap (bytes.length / 2) → Avdt.discSeidBad bytes i = true →
      (∀ j, j < i → Avdt.discSeidBad bytes j = false) →
      (Avdt.avdt_msg_prs_discover_rsp cap bytes).2.length = i + 1) := by
  have hle : 2 * min cap (bytes.length / 2) ≤ bytes.length := by
    have h1 : min cap (bytes.length / 2) ≤ bytes.length / 2 :=
      Nat.min_le_right _ _
    omega
  exact avdt_prs_discover_loop_props (min cap (bytes.length / 2)) bytes hle

/-- Witness for avdt_msg_prs_discover_rsp_bounds: a two-entry body whose
second entry carries SEID 0, with capacity 8. -/
theorem avdt_msg_prs_discover_rsp_bounds_witness :
    (Avdt.avdt_msg_prs_discover_rsp 8 [4, 0, 0, 0]).2.length ≤ 2 ∧
    (Avdt.avdt_msg_prs_discover_rsp 8 [4, 0, 0, 0]).1 =
      Avdt.AVDT_ERR_SEID ∧
    (Avdt.avdt_msg_prs_discover_rsp 8 [4, 0, 0, 0]).2.length = 2 := by
  have h := avdt_msg_prs_discover_rsp_bounds 8 [4, 0, 0, 0]
  refine ⟨h.1, ?_, ?_⟩
  · exact h.2.1.mpr ⟨1, by decide, by decide⟩
  · exact h.2.2.2 1 (by decide) (by decide) (by decide)

theorem asmbl_not_term_of_len0 (f : Avdt.Frag) (h : f.len < 1) :
    ¬ Avdt.asmbl_terminator f := by
  unfold Avdt.asmbl_terminator
  rintro (⟨h1, h2⟩ | ⟨h1, h2, h3⟩ | ⟨h1, h2⟩) <;>
    simp [Avdt.AVDT_LEN_TYPE_SINGLE, Avdt.AVDT_LEN_TYPE_START,
          Avdt.AVDT_LEN_TYPE_END] at h2 <;>
    omega

theorem asmbl_not_term_of_short (f : Avdt.Frag)
    (h : f.len < Avdt.avdt_msg_pkt_type_len f.pkt_type) :
    ¬ Avdt.asmbl_terminator f := by
  unfold Avdt.asmbl_terminator
  rintro (⟨h1, h2⟩ | ⟨h1, h2, h3⟩ | ⟨h1, h2⟩) <;>
    rw [h1] at h <;>
    simp [Avdt.avdt_msg_pkt_type_len, Avdt.AVDT_PKT_TYPE_SINGLE,
          Avdt.AVDT_PKT_TYPE_START, Avdt.AVDT_PKT_TYPE_END,
          Avdt.AVDT_LEN_TYPE_SINGLE, Avdt.AVDT_LEN_TYPE_START,
          Avdt.AVDT_LEN_TYPE_END] at h h2 <;>
    omega

theorem asmbl_none_step (f : Avdt.Frag) (h : ¬ Avdt.asmbl_opener f) :
    (Avdt.avdt_msg_asmbl none f).1 = none := by
  unfold Avdt.avdt_msg_asmbl
  by_cases c1 : f.len < 1
  · rw [if_pos c1]
  · rw [if_neg c1]
    by_cases c2 : f.len < Avdt.avdt_msg_pkt_type_len f.pkt_type
    · rw [if_pos c2]
    · rw [if_neg c2]
      by_cases c3 : (f.pkt_type == Avdt.AVDT_PKT_TYPE_SINGLE) = true
      · rw [if_pos c3]
      · rw [if_neg c3]
        by_cases c4 : (f.pkt_type == Avdt.AVDT_PKT_TYPE_START) = true
        · rw [if_pos c4]
          by_cases c5 : Avdt.BT_HDR_SIZE + f.offset + f.len >
              Avdt.BT_DEFAULT_BUFFER_SIZE
          · rw [if_pos c5]
          · exfalso
            apply h
            have hp : f.pkt_type = Avdt.AVDT_PKT_TYPE_START := by
              simpa using c4
            refine ⟨hp, ?_, by omega⟩
            rw [hp] at c2
            simp [Avdt.avdt_msg_pkt_type_len, Avdt.AVDT_PKT_TYPE_START,
                  Avdt.AVDT_LEN_TYPE_START] at c2
            simp [Avdt.AVDT_LEN_TYPE_START]
            omega
        · rw [if_neg c4]

theorem asmbl_step_keeps (st : Option Avdt.RxMsg) (f : Avdt.Frag)
    (r' : Avdt.RxMsg) (hs : (Avdt.avdt_msg_asmbl st f).1 = some r')
    (hop : ¬ Avdt.asmbl_opener f) :
    st ≠ none ∧ ¬ Avdt.asmbl_terminator f := by
  constructor
  · intro he
    rw [he, asmbl_none_step f hop] at hs
    exact Option.noConfusion hs
  · unfold Avdt.avdt_msg_asmbl at hs
    by_cases c1 : f.len < 1
    · exact asmbl_not_term_of_len0 f c1
    · rw [if_neg c1] at hs
      by_cases c2 : f.len < Avdt.avdt_msg_pkt_type_len f.pkt_type
      · exact asmbl_not_term_of_short f c2
      · rw [if_neg c2] at hs
        by_cases c3 : (f.pkt_type == Avdt.AVDT_PKT_TYPE_SINGLE) = true
        · rw [if_pos c3] at hs
          exact absurd hs (by simp)
        · rw [if_neg c3] at hs
          by_cases c4 : (f.pkt_type == Avdt.AVDT_PKT_TYPE_START) = true
          · rw [if_pos c4] at hs
            by_cases c5 : Avdt.BT_HDR_SIZE + f.offset + f.len >
                Avdt.BT_DEFAULT_BUFFER_SIZE
            · rw [if_pos c5] at hs
              exact absurd hs (by simp)
            · exfalso
              apply hop
              have hp : f.pkt_type = Avdt.AVDT_PKT_TYPE_START := by
                simpa using c4
              refine ⟨hp, ?_, by omega⟩
              rw [hp] at c2
              simp [Avdt.avdt_msg_pkt_type_len, Avdt.AVDT_PKT_TYPE_START,
                    Avdt.AVDT_LEN_TYPE_START] at c2
              simp [Avdt.AVDT_LEN_TYPE_START]
              omega
          · rw [if_neg c4] at hs
            cases st with
            | none => simp at hs
            | some r =>
              dsimp only at hs
              by_cases c5 : r.offset + (f.len - Avdt.AVDT_LEN_TYPE_CONT) >
                  Avdt.BT_DEFAULT_BUFFER_SIZE - Avdt.BT_HDR_SIZE
              · rw [if_pos c5] at hs
                exact absurd hs (by simp)
              · rw [if_neg c5] at hs
                by_cases c6 : (f.pkt_type == Avdt.AVDT_PKT_TYPE_END) = true
                · rw [if_pos c6] at hs
                  exact absurd hs (by simp)
                · intro ht
                  unfold Avdt.asmbl_terminator at ht
                  rcases ht with ⟨h1, _⟩ | ⟨h1, _, _⟩ | ⟨h1, _⟩
                  · exact c3 (by simp [h1])
                  · exact c4 (by simp [h1])
                  · exact c6 (by simp [h1])

theorem asmbl_run_trace : ∀ (fs : List Avdt.Frag) (st : Option Avdt.RxMsg)
    (r : Avdt.RxMsg), Avdt.avdt_msg_asmbl_run st fs = some r →
    (∃ pre s post, fs = pre ++ s :: post ∧ Avdt.asmbl_opener s ∧
       ∀ g ∈ post, ¬ Avdt.asmbl_terminator g) ∨
    (st ≠ none ∧ ∀ g ∈ fs, ¬ Avdt.asmbl_terminator g) := by
  intro fs
  induction fs with
  | nil =>
    intro st r h
    right
    refine ⟨?_, by simp⟩
    intro he
    rw [he] at h
    simp [Avdt.avdt_msg_asmbl_run] at h
  | cons f fs ih =>
    intro st r h
    simp only [Avdt.avdt_msg_asmbl_run, List.foldl_cons] at h
    have h' : Avdt.avdt_msg_asmbl_run ((Avdt.avdt_msg_asmbl st f).1) fs =
        some r := h
    rcases ih ((Avdt.avdt_msg_asmbl st f).1) r h' with hL | ⟨hne, hnt⟩
    · obtain ⟨pre, s, post, he, hopn, hpost⟩ := hL
      left
      exact ⟨f :: pre, s, post, by simp [he], hopn, hpost⟩
    · by_cases hop : Avdt.asmbl_opener f
      · left
        exact ⟨[], f, fs, rfl, hop, hnt⟩
      · obtain ⟨r2, hr2⟩ : ∃ r2, (Avdt.avdt_msg_asmbl st f).1 = some r2 := by
          cases hq : (Avdt.avdt_msg_asmbl st f).1 with
          | none => exact absurd hq hne
          | some x => exact ⟨x, rfl⟩
        have hk := asmbl_step_keeps st f r2 hr2 hop
        right
        refine ⟨hk.1, ?_⟩
        intro g hg
        rcases List.mem_cons.mp hg with hgf | hgs
        · rw [hgf]
          exact hk.2
        · exact hnt g hgs

/-- C3: one avdt_msg_asmbl step obeys the SINGLE | START CONT* END
discipline — a well-formed SINGLE discards any in-progress reassembly and
is returned; a well-formed START discards any in-progress reassembly,
opens a fresh buffer unless oversized, and returns nothing; a CONT or END
with no reassembly in progress is dropped; only an END returns a
completed message; an undersized fragment is dropped with the state
untouched — and over any fragment sequence from the idle state the slot
holds a buffer only if a START arrived with no later terminating SINGLE,
oversized START, or END. -/
theorem avdt_msg_asmbl_regular_language (st : Option Avdt.RxMsg)
    (f : Avdt.Frag) :
    (f.pkt_type = Avdt.AVDT_PKT_TYPE_SINGLE →
      Avdt.AVDT_LEN_TYPE_SINGLE ≤ f.len →
      Avdt.avdt_msg_asmbl st f = (none, some (.single f.offset f.len))) ∧
    (f.pkt_type = Avdt.AVDT_PKT_TYPE_START →
      Avdt.AVDT_LEN_TYPE_START ≤ f.len →
      Avdt.avdt_msg_asmbl st f =
        (if Avdt.BT_HDR_SIZE + f.offset + f.len >
            Avdt.BT_DEFAULT_BUFFER_SIZE then none
         else some ⟨f.offset + f.len, f.len - 1⟩, none)) ∧
    ((f.pkt_type = Avdt.AVDT_PKT_TYPE_CONT ∨
      f.pkt_type = Avdt.AVDT_PKT_TYPE_END) → Avdt.AVDT_LEN_TYPE_CONT ≤ f.len →
      Avdt.avdt_msg_asmbl none f = (none, none)) ∧
    (∀ o l, (Avdt.avdt_msg_asmbl st f).2 = some (.assembled o l) →
      f.pkt_type = Avdt.AVDT_PKT_TYPE_END ∧ st ≠ none) ∧
    (f.len < Avdt.avdt_msg_pkt_type_len f.pkt_type →
      Avdt.avdt_msg_asmbl st f = (st, none)) ∧
    (∀ (fs : List Avdt.Frag) (r : Avdt.RxMsg),
      Avdt.avdt_msg_asmbl_run none fs = some r →
      ∃ pre s post, fs = pre ++ s :: post ∧ Avdt.asmbl_opener s ∧
        ∀ g ∈ post, ¬ Avdt.asmbl_terminator g) := by
  refine ⟨?_, ?_, ?_, ?_, ?_, ?_⟩
  · intro hp hl
    unfold Avdt.avdt_msg_asmbl
    rw [if_neg (by simp [Avdt.AVDT_LEN_TYPE_SINGLE] at hl; omega),
        if_neg (by rw [hp]; simp [Avdt.avdt_msg_pkt_type_len,
          Avdt.AVDT_PKT_TYPE_SINGLE]; omega),
        if_pos (by simp [hp])]
  · intro hp hl
    unfold Avdt.avdt_msg_asmbl
    rw [if_neg (by simp [Avdt.AVDT_LEN_TYPE_START] at hl; omega),
        if_neg (by rw [hp]; simp [Avdt.avdt_msg_pkt_type_len,
          Avdt.AVDT_PKT_TYPE_START]; omega),
        if_neg (by simp [hp, Avdt.AVDT_PKT_TYPE_SINGLE,
          Avdt.AVDT_PKT_TYPE_START]),
        if_pos (by simp [hp])]
    by_cases c5 : Avdt.BT_HDR_SIZE + f.offset + f.len >
        Avdt.BT_DEFAULT_BUFFER_SIZE
    · rw [if_pos c5, if_pos c5]
    · rw [if_neg c5, if_neg c5]
  · intro hp hl
    unfold Avdt.avdt_msg_asmbl
    rw [if_neg (by simp [Avdt.AVDT_LEN_TYPE_CONT] at hl; omega),
        if_neg (by rcases hp with h | h <;> rw [h] <;>
          simp [Avdt.avdt_msg_pkt_type_len, Avdt.AVDT_PKT_TYPE_CONT,
            Avdt.AVDT_PKT_TYPE_END, Avdt.AVDT_LEN_TYPE_CONT,
            Avdt.AVDT_LEN_TYPE_END] <;>
          simp [Avdt.AVDT_LEN_TYPE_CONT] at hl <;> omega),
        if_neg (by rcases hp with h | h <;>
          simp [h, Avdt.AVDT_PKT_TYPE_SINGLE, Avdt.AVDT_PKT_TYPE_CONT,
            Avdt.AVDT_PKT_TYPE_END]),
        if_neg (by rcases hp with h | h <;>
          simp [h, Avdt.AVDT_PKT_TYPE_START, Avdt.AVDT_PKT_TYPE_CONT,
            Avdt.AVDT_PKT_TYPE_END])]
  · intro o l hs
    unfold Avdt.avdt_msg_asmbl at hs
    by_cases c1 : f.len < 1
    · rw [if_pos c1] at hs
      exact absurd hs (by simp)
    · rw [if_neg c1] at hs
      by_cases c2 : f.len < Avdt.avdt_msg_pkt_type_len f.pkt_type
      · rw [if_pos c2] at hs
        exact absurd hs (by simp)
      · rw [if_neg c2] at hs
        by_cases c3 : (f.pkt_type == Avdt.AVDT_PKT_TYPE_SINGLE) = true
        · rw [if_pos c3] at hs
          simp at hs
        · rw [if_neg c3] at hs
          by_cases c4 : (f.pkt_type == Avdt.AVDT_PKT_TYPE_START) = true
          · rw [if_pos c4] at hs
            by_cases c5 : Avdt.BT_HDR_SIZE + f.offset + f.len >
                Avdt.BT_DEFAULT_BUFFER_SIZE
            · rw [if_pos c5] at hs
              exact absurd hs (by simp)
            · rw [if_neg c5] at hs
              exact absurd hs (by simp)
          · rw [if_neg c4] at hs
            cases st with
            | none => simp at hs
            | some r =>
              dsimp only at hs
              by_cases c5 : r.offset + (f.len - Avdt.AVDT_LEN_TYPE_CONT) >
                  Avdt.BT_DEFAULT_BUFFER_SIZE - Avdt.BT_HDR_SIZE
              · rw [if_pos c5] at hs
                exact absurd hs (by simp)
              · rw [if_neg c5] at hs
                by_cases c6 : (f.pkt_type == Avdt.AVDT_PKT_TYPE_END) = true
                · exact ⟨by simpa using c6, by simp⟩
                · rw [if_neg c6] at hs
                  exact absurd hs (by simp)
  · intro hshort
    unfold Avdt.avdt_msg_asmbl
    by_cases c1 : f.len < 1
    · rw [if_pos c1]
    · rw [if_neg c1, if_pos hshort]
  · intro fs r h
    rcases asmbl_run_trace fs none r h with hL | ⟨hne, _⟩
    · exact hL
    · exact absurd rfl hne

/-- Witness for avdt_msg_asmbl_regular_language: a well-formed SINGLE
arriving during a reassembly discards the buffer and is returned. -/
theorem avdt_msg_asmbl_regular_language_witness :
    Avdt.avdt_msg_asmbl (some ⟨20, 5⟩) ⟨13, 4, 0⟩ =
      (none, some (.single 13 4)) :=
  (avdt_msg_asmbl_regular_language (some ⟨20, 5⟩) ⟨13, 4, 0⟩).1 rfl
    (by decide)

/-- C4 (amended): for a reassembled PDU that is not taken for a General
Reject (that heuristic catches rejects of total length 2), a signal id
field of 0 or greater than AVDT_SIG_MAX = 13 makes avdt_msg_ind queue a
General Reject and dispatch no event when the message type is command,
and drop the PDU — sending and dispatching nothing — when the message
type is response or reject. -/
theorem avdt_msg_ind_bad_sig (env : Avdt.IndEnv) (bytes : List Nat)
    (hsig : bytes.getD 1 0 &&& 0x3F = 0 ∨
            bytes.getD 1 0 &&& 0x3F > Avdt.AVDT_SIG_MAX) :
    (bytes.getD 0 0 &&& 3 = Avdt.AVDT_MSG_TYPE_CMD →
      Avdt.avdt_msg_ind env bytes = { sent_grej := true }) ∧
    (bytes.getD 0 0 &&& 3 = Avdt.AVDT_MSG_TYPE_RSP →
      Avdt.avdt_msg_ind env bytes = {}) ∧
    (bytes.getD 0 0 &&& 3 = Avdt.AVDT_MSG_TYPE_REJ → bytes.length ≠ 2 →
      Avdt.avdt_msg_ind env bytes = {}) := by
  refine ⟨?_, ?_, ?_⟩
  · intro hmt
    simp only [Avdt.avdt_msg_ind]
    rw [hmt]
    rw [if_neg (by simp [Avdt.AVDT_MSG_TYPE_CMD, Avdt.AVDT_MSG_TYPE_GRJ]),
        if_neg (by simp [Avdt.AVDT_MSG_TYPE_CMD, Avdt.AVDT_MSG_TYPE_REJ]),
        if_pos hsig]
    simp [Avdt.AVDT_MSG_TYPE_CMD]
  · intro hmt
    simp only [Avdt.avdt_msg_ind]
    rw [hmt]
    rw [if_neg (by simp [Avdt.AVDT_MSG_TYPE_RSP, Avdt.AVDT_MSG_TYPE_GRJ]),
        if_neg (by simp [Avdt.AVDT_MSG_TYPE_RSP, Avdt.AVDT_MSG_TYPE_REJ]),
        if_pos hsig]
    simp [Avdt.AVDT_MSG_TYPE_RSP, Avdt.AVDT_MSG_TYPE_CMD]
  · intro hmt hlen
    simp only [Avdt.avdt_msg_ind]
    rw [hmt]
    rw [if_neg (by simp [Avdt.AVDT_MSG_TYPE_REJ, Avdt.AVDT_MSG_TYPE_GRJ]),
        if_neg (by simp [Avdt.AVDT_LEN_GEN_REJ, hlen]),
        if_pos hsig]
    simp [Avdt.AVDT_MSG_TYPE_REJ, Avdt.AVDT_MSG_TYPE_CMD]

/-- Witness for avdt_msg_ind_bad_sig: a command with signal id 63 draws a
General Reject, a response with signal id 0 is dropped. -/
theorem avdt_msg_ind_bad_sig_witness :
    Avdt.avdt_msg_ind ⟨fun _ => true, none, 0, false⟩ [0, 63] =
      { sent_grej := true } ∧
    Avdt.avdt_msg_ind ⟨fun _ => true, none, 0, false⟩ [2, 0] = {} := by
  constructor
  · exact (avdt_msg_ind_bad_sig ⟨fun _ => true, none, 0, false⟩ [0, 63]
      (Or.inr (by decide))).1 rfl
  · exact (avdt_msg_ind_bad_sig ⟨fun _ => true, none, 0, false⟩ [2, 0]
      (Or.inl rfl)).2.1 rfl

/-- C4 counterexample: a well-formed delay-report command carries signal
id 13, which is greater than 12, yet avdt_msg_ind does not send a General
Reject for it — it parses it and dispatches the delay-report command
event to the SCB: AVDT_SIG_MAX is 13, not 12. -/
theorem avdt_msg_ind_sig13_cex :
    Avdt.avdt_msg_ind ⟨fun _ => true, none, 0, false⟩ [0, 13, 4, 0, 0] =
      { sent_grej := false, sent_rej := false, ccb_evt := none,
        scb_evt := some Avdt.AVDT_SCB_MSG_DELAY_RPT_CMD_EVT,
        handle_rsp := false } ∧
    (13 : Nat) > 12 ∧ (0 : Nat) &&& 3 = Avdt.AVDT_MSG_TYPE_CMD ∧
    [0, 13, 4, 0, 0].getD 1 0 &&& 0x3F = 13 := by
  refine ⟨by decide, by decide, by decide, by decide⟩
